import Mathlib

/-!
# octet scene: lighting aggregation, render dispatch and scene registry

A shallow embedding of `src/octet/src/scene/scene.h` (class `scene`) and of
`src/octet/src/scene/material.h` (class `material`), with theorems about
`scene::calc_lighting`, `scene::render_impl`,
`scene::create_default_camera_and_lights` and
`scene::get_first_mesh_instance`.

Conventions of the embedding

* A `float` is a value of the type `float` below: a finite value given by a
  rational, an infinity or a NaN. A literal of the sources (`0`, `0.5f`, `1`,
  `0.1f`, `5000.0f`, ...) is written as the rational it spells. The addition
  of `float`, which rounds, is not fixed: it is the parameter
  `float_arithmetic`, of which only two facts are used.
* `int` values are integers; `num_lights` and `num_light_uniforms` never
  exceed 17, and `frame_number++` wraps at 32 bits (`wrap_int`), which is what
  the compiled code does on signed overflow.
* A `scene_node *` is a `node_ref`, the index of the node in the store
  `scene.nodes`; a camera is reached through a `camera_ref`, the index of the
  camera object in the store `scene.cameras`; pointer equality is equality of
  indices.
* A `ref<T>` entry of the mesh, animation and light collections is modelled
  by the value of the object it refers to, which `scene` only reads; null
  references (a caller contract violation) are not represented.
* `assert` is the checking one (no `NDEBUG`): a failed assertion stops the
  call where it stands.
-/

namespace Octet

/-! ## Collaborator types (declared outside the two source files) -/

/-- The values of the C++ type `float`: the finite ones, given by their
rational value (the two zeros are one value), the two infinities and NaN. -/
inductive float where
  | finite (q : ℚ) : float
  | inf (negative : Bool) : float
  | nan : float
deriving DecidableEq, Repr

open float (finite)

/-- The addition of the C++ type `float`. It rounds, so it is kept as a
parameter `add`, with the two facts about it that are used: adding to zero
changes nothing, and the sum of two integers of magnitude at most `2 ^ 23` is
exact. -/
structure float_arithmetic where
  add : float → float → float
  zero_add : ∀ x : float, add (finite 0) x = x
  add_small_int : ∀ m n : ℤ, m.natAbs ≤ 2 ^ 23 → n.natAbs ≤ 2 ^ 23 →
    add (finite m) (finite n) = finite (m + n)

/-- Modelled from the spec: `vec4` is not among the sources; a vector of four
floats, written `vec4(x, y, z, w)` in `scene.h`. -/
structure vec4 where
  x : float
  y : float
  z : float
  w : float
deriving DecidableEq, Repr

/-- The vector of four finite floats of given values. -/
def vec4.finite (x y z w : ℚ) : vec4 :=
  ⟨float.finite x, float.finite y, float.finite z, float.finite w⟩

/-- Modelled from the spec: `vec4::operator+=` is not among the sources; the
spec's "accumulate its color into a running ambient sum" is the addition of
floats on each of the four components. -/
def vec4.add (fp : float_arithmetic) (a b : vec4) : vec4 :=
  ⟨fp.add a.x b.x, fp.add a.y b.y, fp.add a.z b.z, fp.add a.w b.w⟩

/-- The vector of four zeros. -/
def vec4.zero : vec4 := vec4.finite 0 0 0 0

/-- Modelled from the spec: `mat4t` and its operations are not among the
sources; a matrix is kept uninterpreted, as the term of operations that built
it. `sym` stands for a matrix produced by a collaborator. -/
inductive mat4t where
  | identity : mat4t
  | sym (tag : Nat) : mat4t
  | translate (m : mat4t) (x y z : float) : mat4t
  | rotateX (m : mat4t) (angle : float) : mat4t
  | rotateY (m : mat4t) (angle : float) : mat4t
  | invertQuick (m : mat4t) : mat4t
  | mul (a b : mat4t) : mat4t
deriving DecidableEq, Repr

/-- Modelled from the spec: `atom_t` is not among the sources; the light kinds
the spec lists (ambient, directional, point, spot) and any other atom. -/
inductive atom_t where
  | atom_ambient : atom_t
  | atom_directional : atom_t
  | atom_point : atom_t
  | atom_spot : atom_t
  | atom_other (id : Nat) : atom_t
deriving DecidableEq, Repr

open atom_t

/-- A `scene_node *`: the index of the node in `scene.nodes`. -/
abbrev node_ref := Nat

/-- Modelled from the spec: `scene_node` is not among the sources; the
local-to-parent transform and the child nodes. -/
structure scene_node where
  nodeToParent : mat4t
  children : List node_ref
deriving DecidableEq, Repr

/-- Modelled from the spec: `light_instance` is not among the sources; node,
kind and colour. -/
structure light_instance where
  node : node_ref
  kind : atom_t
  color : vec4
deriving DecidableEq, Repr

/-- Modelled from the spec: `camera_instance` is not among the sources; node,
the five arguments of `set_perspective`, and the two values
`set_cameraToWorld` stores. -/
structure camera_instance where
  node : node_ref
  perspective : float × float × float × float × float
  cameraToWorld : mat4t
  aspect_ratio : float
deriving DecidableEq, Repr

/-- A reference or pointer to a camera instance: the index of the object in
`scene.cameras`. -/
abbrev camera_ref := Nat

/-- Modelled from the spec: `skin` is not among the sources; an identity. -/
structure skin where
  id : Nat
deriving DecidableEq, Repr

/-- Modelled from the spec: `skeleton` is not among the sources; an identity
and the value of `get_num_bones()`. -/
structure skeleton where
  id : Nat
  num_bones : Int
deriving DecidableEq, Repr

/-- Modelled from the spec: `mesh` is not among the sources; an identity and
the optional skin returned by `get_skin()`. -/
structure mesh where
  id : Nat
  skin : Option skin
deriving DecidableEq, Repr

/-- A `bump_shader &`: the identity of the shader object. -/
abbrev bump_shader := Nat

/-! ## `material.h` -/

/-- The data members of `class material`. -/
structure material where
  diffuse : Nat
  ambient : Nat
  emission : Nat
  specular : Nat
  bump : Nat
  shininess : float
deriving DecidableEq, Repr

/-- The calls `material` and `mesh` make on the GL side. `glActiveTexture i`
stands for `glActiveTexture(GL_TEXTUREi)` and `glBindTexture t` for
`glBindTexture(GL_TEXTURE_2D, t)`; `shader_render` and
`shader_render_skinned` are `bump_shader::render` and
`bump_shader::render_skinned` with their arguments; `draw` is the draw call
of `mesh::render`. -/
inductive gl_call where
  | glActiveTexture (texture : Nat) : gl_call
  | glBindTexture (texture : Nat) : gl_call
  | shader_render (shader : bump_shader) (modelToProjection modelToCamera : mat4t)
      (light_uniforms : List vec4) (num_light_uniforms num_lights : Int) : gl_call
  | shader_render_skinned (shader : bump_shader) (cameraToProjection : mat4t)
      (modelToCamera : List mat4t) (num_nodes : Int)
      (light_uniforms : List vec4) (num_light_uniforms num_lights : Int) : gl_call
  | draw (msh : mesh) : gl_call
deriving DecidableEq, Repr

/-- `material::bind_textures()`. -/
def material.bind_textures (m : material) : List gl_call :=
  [ gl_call.glActiveTexture 0, gl_call.glBindTexture m.diffuse,
    gl_call.glActiveTexture 1, gl_call.glBindTexture m.ambient,
    gl_call.glActiveTexture 2, gl_call.glBindTexture m.emission,
    gl_call.glActiveTexture 3, gl_call.glBindTexture m.specular,
    gl_call.glActiveTexture 4, gl_call.glBindTexture m.bump,
    gl_call.glActiveTexture 0 ]

/-- `material::render`: the shader's `render`, then `bind_textures`. -/
def material.render (m : material) (shader : bump_shader)
    (modelToProjection modelToCamera : mat4t) (light_uniforms : List vec4)
    (num_light_uniforms num_lights : Int) : List gl_call :=
  gl_call.shader_render shader modelToProjection modelToCamera light_uniforms
      num_light_uniforms num_lights
    :: m.bind_textures

/-- `material::render_skinned`: the shader's `render_skinned`, then
`bind_textures`. -/
def material.render_skinned (m : material) (shader : bump_shader) (cameraToProjection : mat4t)
    (modelToCamera : List mat4t) (num_nodes : Int) (light_uniforms : List vec4)
    (num_light_uniforms num_lights : Int) : List gl_call :=
  gl_call.shader_render_skinned shader cameraToProjection modelToCamera num_nodes
      light_uniforms num_light_uniforms num_lights
    :: m.bind_textures

/-- Modelled from the spec: `mesh_instance` is not among the sources; node,
mesh, material and optional skeleton. -/
structure mesh_instance where
  node : node_ref
  msh : mesh
  mat : material
  skel : Option skeleton
deriving DecidableEq, Repr

/-- Modelled from the spec: `animation_instance` is not among the sources;
animation, optional target and looping flag. -/
structure animation_instance where
  anim : Nat
  target : Option Nat
  is_looping : Bool
deriving DecidableEq, Repr

/-! ## The lighting uniform buffer -/

/-- Value of `max_lights` in the anonymous enum of `scene`. -/
def max_lights : Nat := 4

/-- Value of `light_size` in the anonymous enum of `scene`. -/
def light_size : Nat := 4

/-- The array `vec4 light_uniforms[1 + max_lights * light_size]`. -/
structure uniform_buffer where
  slots : List vec4
  size_eq : slots.length = 1 + max_lights * light_size

/-- Assignment `light_uniforms[i] = v`. -/
def uniform_buffer.set (b : uniform_buffer) (i : Nat) (v : vec4) : uniform_buffer :=
  ⟨b.slots.set i v, by simp [b.size_eq]⟩

/-- Read of `light_uniforms[i]`. -/
def uniform_buffer.get (b : uniform_buffer) (i : Nat) : vec4 :=
  b.slots.getD i vec4.zero

/-- Modelled from the spec: `light_instance::get_fragment_uniforms` is not
among the sources; it "emits its camera-space fragment uniform block", of
`light_size` vectors, at the destination pointer. `block j` is the vector it
stores at offset `j`. -/
def write_block (b : uniform_buffer) (base : Nat) (block : Fin 4 → vec4) : uniform_buffer :=
  (((b.set base (block 0)).set (base + 1) (block 1)).set (base + 2) (block 2)).set
    (base + 3) (block 3)

/-- The collaborators `scene` calls and whose code is not among the sources,
and the arithmetic of `float`, taken as parameters. -/
structure collaborators where
  /-- The addition of `float`. -/
  fp : float_arithmetic
  /-- `scene_node::calcModelToWorld()` of the node at a reference. -/
  calcModelToWorld : List scene_node → node_ref → mat4t
  /-- The block `light_instance::get_fragment_uniforms` emits. -/
  get_fragment_uniforms : List scene_node → light_instance → mat4t → Fin 4 → vec4
  /-- `camera_instance::get_cameraToProjection()`. -/
  get_cameraToProjection : camera_instance → mat4t
  /-- `camera_instance::get_matrices`: `(modelToProjection, modelToCamera)`. -/
  get_matrices : camera_instance → mat4t → mat4t × mat4t
  /-- `skeleton::calc_transforms(modelToCamera, skn)`. -/
  calc_transforms : skeleton → mat4t → skin → List mat4t
  /-- The object `new camera_instance()` constructs. -/
  new_camera_instance : camera_instance
  /-- The object `new light_instance()` constructs. -/
  new_light_instance : light_instance

/-! ## `scene.h` -/

/-- The data members of `class scene`, with the stores its node pointers and
its camera references point into, and the child list of its `scene_node`
base. -/
@[ext]
structure scene where
  nodes : List scene_node
  cameras : List camera_instance
  children : List node_ref
  mesh_instances : List mesh_instance
  animation_instances : List animation_instance
  camera_instances : List camera_ref
  light_instances : List light_instance
  num_light_uniforms : Int
  num_lights : Int
  light_uniforms : uniform_buffer
  frame_number : Int

/-- The variables the loop of `scene::calc_lighting` updates: the buffer
(whose slot 0 is `ambient`), `num_lights` and `num_ambient`. -/
structure lighting_state where
  light_uniforms : uniform_buffer
  num_lights : Nat
  num_ambient : Nat

/-- The body of the `for` loop of `scene::calc_lighting`, for one light. -/
def calc_lighting_step (c : collaborators) (nodes : List scene_node) (worldToCamera : mat4t)
    (li : light_instance) (st : lighting_state) : lighting_state :=
  if li.kind = atom_ambient then
    { st with
      light_uniforms :=
        st.light_uniforms.set 0 (vec4.add c.fp (st.light_uniforms.get 0) li.color)
      num_ambient := st.num_ambient + 1 }
  else
    { st with
      light_uniforms :=
        write_block st.light_uniforms (1 + st.num_lights * light_size)
          (c.get_fragment_uniforms nodes li worldToCamera)
      num_lights := st.num_lights + 1 }

/-- The `for` loop of `scene::calc_lighting` over the lights not yet visited:
it runs while `i != light_instances.size() && num_lights != max_lights`. -/
def calc_lighting_loop (c : collaborators) (nodes : List scene_node) (worldToCamera : mat4t) :
    List light_instance → lighting_state → lighting_state
  | [], st => st
  | li :: rest, st =>
    if st.num_lights = max_lights then st
    else calc_lighting_loop c nodes worldToCamera rest
      (calc_lighting_step c nodes worldToCamera li st)

/-- The state `scene::calc_lighting` enters its loop with. -/
def calc_lighting_init (s : scene) : lighting_state :=
  { light_uniforms := s.light_uniforms.set 0 (vec4.finite 0 0 0 1)
    num_lights := 0
    num_ambient := 0 }

/-- The default ambient colour `vec4(0.5f, 0.5f, 0.5f, 1)`. -/
def default_ambient : vec4 := vec4.finite (1/2) (1/2) (1/2) 1

/-- `scene::calc_lighting(worldToCamera)`. -/
def calc_lighting (c : collaborators) (worldToCamera : mat4t) (s : scene) : scene :=
  let st := calc_lighting_loop c s.nodes worldToCamera s.light_instances (calc_lighting_init s)
  let buf :=
    if st.num_ambient = 0 then st.light_uniforms.set 0 default_ambient
    else st.light_uniforms
  { s with
    light_uniforms := buf
    num_lights := st.num_lights
    num_light_uniforms := 1 + st.num_lights * light_size }

/-- The calls the body of the mesh loop of `scene::render_impl` makes on its
collaborators, with their arguments. -/
inductive call where
  | material_render (mat : material) (shader : bump_shader)
      (modelToProjection modelToCamera : mat4t)
      (light_uniforms : List vec4) (num_light_uniforms num_lights : Int) : call
  | skeleton_calc_transforms (skel : skeleton) (modelToCamera : mat4t) (skn : skin) : call
  | material_render_skinned (mat : material) (shader : bump_shader)
      (cameraToProjection : mat4t) (transforms : List mat4t) (num_bones : Int)
      (light_uniforms : List vec4) (num_light_uniforms num_lights : Int) : call
  | mesh_render (msh : mesh) : call
deriving DecidableEq, Repr

/-- The GL-side calls a collaborator call results in: the bodies of
`material::render` and `material::render_skinned` from `material.h`, the draw
call of `mesh::render`, and none for `skeleton::calc_transforms`. -/
def call.gl_calls : call → List gl_call
  | call.material_render mat shader m2p m2c lu nlu nl => mat.render shader m2p m2c lu nlu nl
  | call.skeleton_calc_transforms _ _ _ => []
  | call.material_render_skinned mat shader c2p ts nb lu nlu nl =>
    mat.render_skinned shader c2p ts nb lu nlu nl
  | call.mesh_render msh => [gl_call.draw msh]

/-- Modelled from the spec: `camera_instance::set_cameraToWorld` is not among
the sources; it stores the camera's world transform and "sets the camera's
projection aspect ratio". -/
def camera_instance.set_cameraToWorld (cam : camera_instance) (cameraToWorld : mat4t)
    (aspect_ratio : float) : camera_instance :=
  { cam with cameraToWorld := cameraToWorld, aspect_ratio := aspect_ratio }

/-- The body of the mesh loop of `scene::render_impl` for one mesh instance:
the calls it makes, and whether it reaches its end (`false`: the assertion
`num_bones < 64` failed). The second case of the `match` is the branch
`!skel || !skn` of the source. -/
def render_mesh (c : collaborators) (object_shader skin_shader : bump_shader)
    (cam : camera_instance) (cameraToProjection : mat4t) (s : scene) (mi : mesh_instance) :
    List call × Bool :=
  let msh := mi.msh
  let skn := msh.skin
  let skel := mi.skel
  let mat := mi.mat
  let modelToWorld := c.calcModelToWorld s.nodes mi.node
  let modelToProjection := (c.get_matrices cam modelToWorld).1
  let modelToCamera := (c.get_matrices cam modelToWorld).2
  match skel, skn with
  | some skel, some skn =>
    let transforms := c.calc_transforms skel modelToCamera skn
    let num_bones := skel.num_bones
    if num_bones < 64 then
      ([ call.skeleton_calc_transforms skel modelToCamera skn,
         call.material_render_skinned mat skin_shader cameraToProjection transforms num_bones
           s.light_uniforms.slots s.num_light_uniforms s.num_lights,
         call.mesh_render msh ], true)
    else
      ([ call.skeleton_calc_transforms skel modelToCamera skn ], false)
  | _, _ =>
    ([ call.material_render mat object_shader modelToProjection modelToCamera
         s.light_uniforms.slots s.num_light_uniforms s.num_lights,
       call.mesh_render msh ], true)

/-- How a call of `scene::render_impl` ends: it returns, or the assertion
`num_bones < 64` fails in the iteration `mesh_index`. -/
inductive render_status where
  | completed : render_status
  | assertion_failed (mesh_index : Nat) : render_status
deriving DecidableEq, Repr

/-- The mesh loop of `scene::render_impl` from `mesh_index` on: the calls of
each iteration entered, in order, and how the loop ends. -/
def render_meshes (c : collaborators) (object_shader skin_shader : bump_shader)
    (cam : camera_instance) (cameraToProjection : mat4t) (s : scene) :
    Nat → List mesh_instance → List (List call) × render_status
  | _, [] => ([], render_status.completed)
  | mesh_index, mi :: rest =>
    match render_mesh c object_shader skin_shader cam cameraToProjection s mi with
    | (calls, true) =>
      let r := render_meshes c object_shader skin_shader cam cameraToProjection s
        (mesh_index + 1) rest
      (calls :: r.1, r.2)
    | (calls, false) => ([calls], render_status.assertion_failed mesh_index)

/-- What a call of `scene::render_impl` leaves behind: the scene, the camera
object `cam` is bound to as the call leaves it, the calls of each loop
iteration entered, and how the call ended. -/
structure render_result where
  state : scene
  cam : camera_instance
  dispatches : List (List call)
  status : render_status

/-- The increment of a 32-bit `int`: the result is brought back into
`[-2^31, 2^31)`. -/
def wrap_int (x : Int) : Int :=
  (x + 2147483648) % 4294967296 - 2147483648

/-- The statements of `scene::render_impl`, run on the camera object that the
reference `cam` is bound to. The scene it returns does not yet hold the
camera object it has written. -/
def render_impl_body (c : collaborators) (object_shader skin_shader : bump_shader)
    (cam : camera_instance) (aspect_ratio : float) (s : scene) : render_result :=
  let cameraToWorld := c.calcModelToWorld s.nodes cam.node
  let worldToCamera := mat4t.invertQuick cameraToWorld
  let s1 := calc_lighting c worldToCamera s
  let cam1 := cam.set_cameraToWorld cameraToWorld aspect_ratio
  let cameraToProjection := c.get_cameraToProjection cam1
  let r := render_meshes c object_shader skin_shader cam1 cameraToProjection s1 0
    s1.mesh_instances
  match r.2 with
  | render_status.completed =>
    { state := { s1 with frame_number := wrap_int (s1.frame_number + 1) }
      cam := cam1
      dispatches := r.1
      status := render_status.completed }
  | render_status.assertion_failed i =>
    { state := s1
      cam := cam1
      dispatches := r.1
      status := render_status.assertion_failed i }

/-- `scene::render_impl(object_shader, skin_shader, cam, aspect_ratio)`. The
parameter `camera_instance &cam` is a reference: the call reads the object at
`cam` in the store and what `set_cameraToWorld` writes lands in the store. A
C++ reference is always bound to an object; an index that is outside the
store, which no reference is, reads as a default-constructed camera and its
write is dropped. -/
def render_impl (c : collaborators) (object_shader skin_shader : bump_shader)
    (cam : camera_ref) (aspect_ratio : float) (s : scene) : render_result :=
  let r := render_impl_body c object_shader skin_shader
    (s.cameras.getD cam c.new_camera_instance) aspect_ratio s
  { r with state := { r.state with cameras := r.state.cameras.set cam r.cam } }

/-- `scene::render`: it calls `render_impl` with its own arguments. -/
def render (c : collaborators) (object_shader skin_shader : bump_shader)
    (cam : camera_ref) (aspect_ratio : float) (s : scene) : render_result :=
  render_impl c object_shader skin_shader cam aspect_ratio s

/-- `scene::add_scene_node()`: a new node (identity transform, no children,
as the spec has it for a fresh node) is stored and made a child of the scene;
its reference is returned. -/
def add_scene_node (s : scene) : scene × node_ref :=
  ({ s with
     nodes := s.nodes ++ [{ nodeToParent := mat4t.identity, children := [] }]
     children := s.children ++ [s.nodes.length] },
   s.nodes.length)

/-- `node->access_nodeToParent().op(...)`: the operation `op` applied in place
to the local transform of a node. -/
def access_nodeToParent (s : scene) (node : node_ref) (op : mat4t → mat4t) : scene :=
  match s.nodes[node]? with
  | some n => { s with nodes := s.nodes.set node { n with nodeToParent := op n.nodeToParent } }
  | none => s

/-- The first `if` of `scene::create_default_camera_and_lights`: the default
camera instance. `new camera_instance()` makes a new object in the store; the
collection receives the reference to it. -/
def create_default_camera (c : collaborators) (s : scene) : scene :=
  if s.camera_instances.length = 0 then
    let s1 := (add_scene_node s).1
    let node := (add_scene_node s).2
    let cam := c.new_camera_instance
    let s2 := access_nodeToParent s1 node
      (fun m => mat4t.translate m (finite 0) (finite 0) (finite 100))
    let n : float := finite (1 / 10)
    let f : float := finite 5000
    let cam := { cam with node := node }
    let cam := { cam with perspective := (finite 1, finite 1, finite 1, n, f) }
    { s2 with
      cameras := s2.cameras ++ [cam]
      camera_instances := s2.camera_instances ++ [s2.cameras.length] }
  else s

/-- The second `if` of `scene::create_default_camera_and_lights`: the default
light instance. -/
def create_default_light (c : collaborators) (s : scene) : scene :=
  if s.light_instances.length = 0 then
    let s1 := (add_scene_node s).1
    let node := (add_scene_node s).2
    let li := c.new_light_instance
    let s2 := access_nodeToParent s1 node
      (fun m => mat4t.translate m (finite 100) (finite 100) (finite 100))
    let s3 := access_nodeToParent s2 node (fun m => mat4t.rotateX m (finite 45))
    let s4 := access_nodeToParent s3 node (fun m => mat4t.rotateY m (finite 45))
    let li := { li with kind := atom_directional }
    let li := { li with node := node }
    { s4 with light_instances := s4.light_instances ++ [li] }
  else s

/-- `scene::create_default_camera_and_lights()`. -/
def create_default_camera_and_lights (c : collaborators) (s : scene) : scene :=
  create_default_light c (create_default_camera c s)

/-- `scene::add_mesh_instance(inst)`. -/
def add_mesh_instance (s : scene) (inst : mesh_instance) : scene :=
  { s with mesh_instances := s.mesh_instances ++ [inst] }

/-- `scene::add_light_instance(inst)`. -/
def add_light_instance (s : scene) (inst : light_instance) : scene :=
  { s with light_instances := s.light_instances ++ [inst] }

/-- `scene::add_camera_instance(inst)`. -/
def add_camera_instance (s : scene) (inst : camera_ref) : scene :=
  { s with camera_instances := s.camera_instances ++ [inst] }

/-- The loop of `scene::get_first_mesh_instance` over the instances not yet
visited. -/
def get_first_mesh_instance_loop (node : node_ref) : List mesh_instance → Option mesh_instance
  | [] => none
  | mi :: rest => if mi.node = node then some mi else get_first_mesh_instance_loop node rest

/-- `scene::get_first_mesh_instance(node)`: the instance returned (`none` for
`NULL`) and the scene as the call leaves it. -/
def get_first_mesh_instance (s : scene) (node : node_ref) : Option mesh_instance × scene :=
  (get_first_mesh_instance_loop node s.mesh_instances, s)

/-! ## Concrete inputs used to evaluate the definitions -/

/-- The constructor `scene()`: empty collections and `frame_number = 0`; the
members it leaves uninitialised are given as arguments. -/
def scene_new (light_uniforms : uniform_buffer) (num_light_uniforms num_lights : Int) : scene :=
  { nodes := []
    cameras := []
    children := []
    mesh_instances := []
    animation_instances := []
    camera_instances := []
    light_instances := []
    num_light_uniforms := num_light_uniforms
    num_lights := num_lights
    light_uniforms := light_uniforms
    frame_number := 0 }

/-- A buffer whose 17 slots all hold the same vector. -/
def constant_buffer (v : vec4) : uniform_buffer :=
  ⟨List.replicate 17 v, by simp [max_lights, light_size]⟩

/-- An addition of floats that does not round: the exact sum of finite
values, with the usual rules for infinities and NaN. -/
def exact_add : float → float → float
  | float.finite a, float.finite b => float.finite (a + b)
  | float.finite _, float.inf n => float.inf n
  | float.inf n, float.finite _ => float.inf n
  | float.inf m, float.inf n => if m = n then float.inf m else float.nan
  | float.nan, _ => float.nan
  | _, float.nan => float.nan

/-- The arithmetic whose addition is `exact_add`. -/
def sample_arithmetic : float_arithmetic :=
  { add := exact_add
    zero_add := fun x => by cases x <;> simp [exact_add]
    add_small_int := fun m n _ _ => by simp [exact_add] }

/-- A concrete choice of the collaborators: additions do not round, world
transforms are local transforms, a light's block holds its colour and its
slot number, the camera matrices are symbolic products. -/
def sample_collaborators : collaborators :=
  { fp := sample_arithmetic
    calcModelToWorld := fun nodes r =>
      match nodes[r]? with
      | some n => n.nodeToParent
      | none => mat4t.identity
    get_fragment_uniforms := fun _ li _ j =>
      ⟨li.color.x, li.color.y, li.color.z, finite j.val⟩
    get_cameraToProjection := fun cam =>
      mat4t.translate (mat4t.sym 0) cam.aspect_ratio (finite 0) (finite 0)
    get_matrices := fun cam m =>
      (mat4t.mul (mat4t.mul m (mat4t.invertQuick cam.cameraToWorld)) (mat4t.sym 0),
       mat4t.mul m (mat4t.invertQuick cam.cameraToWorld))
    calc_transforms := fun skel m _ => List.replicate skel.num_bones.toNat m
    new_camera_instance :=
      ⟨0, (finite 0, finite 0, finite 0, finite 0, finite 0), mat4t.identity, finite 1⟩
    new_light_instance := ⟨0, atom_point, vec4.finite 1 1 1 1⟩ }

/-- An empty scene with a zeroed buffer. -/
def sample_scene : scene := scene_new (constant_buffer vec4.zero) 0 0

/-- A directional light of colour `(1, 1, 1, 1)`. -/
def sample_directional : light_instance := ⟨0, atom_directional, vec4.finite 1 1 1 1⟩

/-- An ambient light of colour `(0.2, 0.2, 0.2, 1)`. -/
def sample_ambient : light_instance :=
  ⟨0, atom_ambient, vec4.finite (1/5) (1/5) (1/5) 1⟩

/-- A camera on node 0. -/
def sample_camera : camera_instance :=
  ⟨0, (finite 1, finite 1, finite 1, finite (1/10), finite 5000), mat4t.identity, finite 1⟩

/-- A material with texture handles 1 to 5. -/
def sample_material : material := ⟨1, 2, 3, 4, 5, finite 30⟩

/-- A mesh instance without skeleton, on a mesh without skin. -/
def sample_rigid_mesh : mesh_instance := ⟨0, ⟨0, none⟩, sample_material, none⟩

/-- A mesh instance with a skeleton of `num_bones` bones, on a mesh with a
skin. -/
def sample_skinned_mesh (num_bones : Int) : mesh_instance :=
  ⟨0, ⟨1, some ⟨0⟩⟩, sample_material, some ⟨0, num_bones⟩⟩

/-- The empty scene `sample_scene` given a light collection. -/
def with_lights (l : List light_instance) : scene :=
  { sample_scene with light_instances := l }

/-- The scene `sample_scene` given a mesh collection and one camera, the
object 0 of the store. -/
def with_meshes (l : List mesh_instance) : scene :=
  { sample_scene with
    mesh_instances := l
    cameras := [sample_camera]
    camera_instances := [0] }

/-- A render call on four meshes: a rigid one, one with 63 bones, one with 64
bones, and a rigid one. -/
def sample_render : render_result :=
  render_impl sample_collaborators 7 8 0 (finite 2)
    (with_meshes [sample_rigid_mesh, sample_skinned_mesh 63, sample_skinned_mesh 64,
      sample_rigid_mesh])

/-- A render call on a single mesh with 64 bones. -/
def sample_render_64 : render_result :=
  render_impl sample_collaborators 7 8 0 (finite 2) (with_meshes [sample_skinned_mesh 64])

/-- A rigid mesh instance on a given node. -/
def sample_mesh_on (node : node_ref) : mesh_instance := ⟨node, ⟨0, none⟩, sample_material, none⟩

/-- The lights of a list whose kind is not `atom_ambient`, in list order. -/
def non_ambient (l : List light_instance) : List light_instance :=
  l.filter (fun li => decide (li.kind ≠ atom_ambient))

/-- The colours of the lights of a list whose kind is `atom_ambient`. -/
def ambient_colors (l : List light_instance) : List vec4 :=
  (l.filter (fun li => decide (li.kind = atom_ambient))).map (fun li => li.color)

/-- The lights the loop of `scene::calc_lighting` visits when it is entered
with `num_lights = m`: it leaves as soon as `num_lights` is `max_lights`. -/
def scanned : Nat → List light_instance → List light_instance
  | _, [] => []
  | m, li :: rest =>
    if m = max_lights then []
    else li :: scanned (if li.kind = atom_ambient then m else m + 1) rest

/-- The assertion `num_bones < 64` holds for a mesh instance, or is not
reached by it: whenever it has a skeleton and its mesh a skin, the skeleton has
fewer than 64 bones. -/
def bones_below_cap (mi : mesh_instance) : Prop :=
  ∀ skel skn, mi.skel = some skel → mi.msh.skin = some skn → skel.num_bones < 64

/-- The GL-side calls of a sequence of collaborator calls, in order. -/
def gl_trace : List call → List gl_call
  | [] => []
  | x :: xs => x.gl_calls ++ gl_trace xs

/-- The lighting outputs of a scene: the buffer, `num_lights` and
`num_light_uniforms`. -/
def lighting_outputs (s : scene) : List vec4 × Int × Int :=
  (s.light_uniforms.slots, s.num_lights, s.num_light_uniforms)

/-! ## Lemmas on vectors and on the buffer -/

theorem uniform_buffer.length_slots (b : uniform_buffer) : b.slots.length = 17 := by
  have h := b.size_eq
  simpa [max_lights, light_size] using h

theorem uniform_buffer.get_set (b : uniform_buffer) (i j : Nat) (v : vec4) :
    (b.set i v).get j = if i = j ∧ i < 17 then v else b.get j := by
  have hlen := b.length_slots
  simp only [uniform_buffer.get, uniform_buffer.set, List.getD_eq_getElem?_getD,
    List.getElem?_set, hlen]
  by_cases hij : i = j
  · subst hij
    by_cases hi : i < 17
    · simp [hi]
    · have h2 : b.slots[i]? = none := List.getElem?_eq_none (by omega)
      simp [hi, h2]
  · simp [hij]

theorem uniform_buffer.get_set_self (b : uniform_buffer) (i : Nat) (v : vec4) (hi : i < 17) :
    (b.set i v).get i = v := by
  simp [uniform_buffer.get_set, hi]

theorem uniform_buffer.get_set_ne (b : uniform_buffer) (i j : Nat) (v : vec4) (h : i ≠ j) :
    (b.set i v).get j = b.get j := by
  simp [uniform_buffer.get_set, h]

theorem write_block_get_of_lt (b : uniform_buffer) (base i : Nat) (f : Fin 4 → vec4)
    (h : i < base) : (write_block b base f).get i = b.get i := by
  unfold write_block
  rw [uniform_buffer.get_set_ne _ _ _ _ (by omega), uniform_buffer.get_set_ne _ _ _ _ (by omega),
    uniform_buffer.get_set_ne _ _ _ _ (by omega), uniform_buffer.get_set_ne _ _ _ _ (by omega)]

theorem write_block_get_of_ge (b : uniform_buffer) (base i : Nat) (f : Fin 4 → vec4)
    (h : base + 4 ≤ i) : (write_block b base f).get i = b.get i := by
  unfold write_block
  rw [uniform_buffer.get_set_ne _ _ _ _ (by omega), uniform_buffer.get_set_ne _ _ _ _ (by omega),
    uniform_buffer.get_set_ne _ _ _ _ (by omega), uniform_buffer.get_set_ne _ _ _ _ (by omega)]

theorem write_block_get_block (b : uniform_buffer) (base : Nat) (f : Fin 4 → vec4)
    (h : base + 3 < 17) (j : Fin 4) : (write_block b base f).get (base + j.val) = f j := by
  unfold write_block
  fin_cases j
  · rw [uniform_buffer.get_set_ne _ _ _ _ (by simp), uniform_buffer.get_set_ne _ _ _ _ (by simp),
      uniform_buffer.get_set_ne _ _ _ _ (by simp)]
    exact uniform_buffer.get_set_self _ _ _ (by omega)
  · rw [uniform_buffer.get_set_ne _ _ _ _ (by simp), uniform_buffer.get_set_ne _ _ _ _ (by simp)]
    exact uniform_buffer.get_set_self _ _ _ (by omega)
  · rw [uniform_buffer.get_set_ne _ _ _ _ (by simp)]
    exact uniform_buffer.get_set_self _ _ _ (by omega)
  · exact uniform_buffer.get_set_self _ _ _ (by omega)

/-! ## Lemmas on the loop of `calc_lighting` -/

section loop
variable (c : collaborators) (nodes : List scene_node) (w : mat4t)

theorem step_ambient (li : light_instance) (st : lighting_state)
    (h : li.kind = atom_ambient) :
    calc_lighting_step c nodes w li st =
      { st with
        light_uniforms :=
          st.light_uniforms.set 0 (vec4.add c.fp (st.light_uniforms.get 0) li.color)
        num_ambient := st.num_ambient + 1 } := by
  simp [calc_lighting_step, h]

theorem step_non_ambient (li : light_instance) (st : lighting_state)
    (h : li.kind ≠ atom_ambient) :
    calc_lighting_step c nodes w li st =
      { st with
        light_uniforms :=
          write_block st.light_uniforms (1 + st.num_lights * light_size)
            (c.get_fragment_uniforms nodes li w)
        num_lights := st.num_lights + 1 } := by
  simp [calc_lighting_step, h]

theorem loop_nil (st : lighting_state) : calc_lighting_loop c nodes w [] st = st := rfl

theorem loop_cons_full (li : light_instance) (rest : List light_instance) (st : lighting_state)
    (h : st.num_lights = max_lights) : calc_lighting_loop c nodes w (li :: rest) st = st := by
  simp [calc_lighting_loop, h]

theorem loop_cons_open (li : light_instance) (rest : List light_instance) (st : lighting_state)
    (h : st.num_lights ≠ max_lights) :
    calc_lighting_loop c nodes w (li :: rest) st =
      calc_lighting_loop c nodes w rest (calc_lighting_step c nodes w li st) := by
  simp [calc_lighting_loop, h]

theorem loop_of_full (l : List light_instance) (st : lighting_state)
    (h : st.num_lights = max_lights) : calc_lighting_loop c nodes w l st = st := by
  cases l with
  | nil => rfl
  | cons li rest => exact loop_cons_full c nodes w li rest st h

theorem loop_append (l₁ l₂ : List light_instance) (st : lighting_state) :
    calc_lighting_loop c nodes w (l₁ ++ l₂) st =
      calc_lighting_loop c nodes w l₂ (calc_lighting_loop c nodes w l₁ st) := by
  induction l₁ generalizing st with
  | nil => rfl
  | cons li rest ih =>
    by_cases h : st.num_lights = max_lights
    · rw [List.cons_append, loop_cons_full c nodes w _ _ _ h, loop_cons_full c nodes w _ _ _ h,
        loop_of_full c nodes w _ _ h]
    · rw [List.cons_append, loop_cons_open c nodes w _ _ _ h, loop_cons_open c nodes w _ _ _ h,
        ih]

theorem non_ambient_cons_ambient (li : light_instance) (rest : List light_instance)
    (h : li.kind = atom_ambient) : non_ambient (li :: rest) = non_ambient rest := by
  simp [non_ambient, h]

theorem non_ambient_cons_other (li : light_instance) (rest : List light_instance)
    (h : li.kind ≠ atom_ambient) : non_ambient (li :: rest) = li :: non_ambient rest := by
  simp [non_ambient, h]

theorem loop_num_lights (l : List light_instance) (st : lighting_state)
    (h : st.num_lights ≤ 4) :
    (calc_lighting_loop c nodes w l st).num_lights
      = min (st.num_lights + (non_ambient l).length) 4 := by
  induction l generalizing st with
  | nil => simp [loop_nil, non_ambient]; omega
  | cons li rest ih =>
    by_cases hfull : st.num_lights = max_lights
    · rw [loop_cons_full c nodes w _ _ _ hfull]
      simp only [max_lights] at hfull
      omega
    · rw [loop_cons_open c nodes w _ _ _ hfull]
      simp only [max_lights] at hfull
      by_cases hk : li.kind = atom_ambient
      · rw [step_ambient c nodes w li st hk, non_ambient_cons_ambient li rest hk]
        exact ih _ h
      · rw [step_non_ambient c nodes w li st hk, non_ambient_cons_other li rest hk]
        rw [ih _ (by show st.num_lights + 1 ≤ 4; omega)]
        simp only [List.length_cons]
        omega

theorem loop_num_lights_le (l : List light_instance) (st : lighting_state)
    (h : st.num_lights ≤ 4) :
    st.num_lights ≤ (calc_lighting_loop c nodes w l st).num_lights ∧
      (calc_lighting_loop c nodes w l st).num_lights ≤ 4 := by
  rw [loop_num_lights c nodes w l st h]
  omega

theorem loop_get_low (l : List light_instance) (st : lighting_state) (i : Nat)
    (h0 : 0 < i) (hi : i < 1 + 4 * st.num_lights) :
    (calc_lighting_loop c nodes w l st).light_uniforms.get i = st.light_uniforms.get i := by
  induction l generalizing st with
  | nil => rfl
  | cons li rest ih =>
    by_cases hfull : st.num_lights = max_lights
    · rw [loop_cons_full c nodes w _ _ _ hfull]
    · rw [loop_cons_open c nodes w _ _ _ hfull]
      by_cases hk : li.kind = atom_ambient
      · have e := step_ambient c nodes w li st hk
        rw [ih (calc_lighting_step c nodes w li st) (by rw [e]; exact hi), e]
        exact uniform_buffer.get_set_ne _ _ _ _ (by omega)
      · have e := step_non_ambient c nodes w li st hk
        rw [ih (calc_lighting_step c nodes w li st)
          (by rw [e]; show i < 1 + 4 * (st.num_lights + 1); omega), e]
        exact write_block_get_of_lt _ _ _ _ (by simp only [light_size]; omega)

theorem loop_get_high (l : List light_instance) (st : lighting_state) (i : Nat)
    (h : st.num_lights ≤ 4)
    (hi : 1 + 4 * (calc_lighting_loop c nodes w l st).num_lights ≤ i) :
    (calc_lighting_loop c nodes w l st).light_uniforms.get i = st.light_uniforms.get i := by
  induction l generalizing st with
  | nil => rfl
  | cons li rest ih =>
    by_cases hfull : st.num_lights = max_lights
    · rw [loop_cons_full c nodes w _ _ _ hfull]
    · rw [loop_cons_open c nodes w _ _ _ hfull] at hi ⊢
      simp only [max_lights] at hfull
      by_cases hk : li.kind = atom_ambient
      · have e := step_ambient c nodes w li st hk
        have h' : (calc_lighting_step c nodes w li st).num_lights ≤ 4 := by rw [e]; exact h
        have hmono := (loop_num_lights_le c nodes w rest _ h').1
        rw [ih _ h' hi]
        rw [e] at hmono ⊢
        exact uniform_buffer.get_set_ne _ _ _ _ (by simp only at hmono; omega)
      · have e := step_non_ambient c nodes w li st hk
        have hn : (calc_lighting_step c nodes w li st).num_lights = st.num_lights + 1 := by
          rw [e]
        have h' : (calc_lighting_step c nodes w li st).num_lights ≤ 4 := by rw [hn]; omega
        have hmono := (loop_num_lights_le c nodes w rest _ h').1
        rw [ih _ h' hi]
        rw [hn] at hmono
        rw [e]
        exact write_block_get_of_ge _ _ _ _ (by simp only [light_size]; omega)

theorem loop_get_block (l : List light_instance) (st : lighting_state)
    (h : st.num_lights ≤ 4) (k : Nat) (li : light_instance)
    (hk : (non_ambient l)[k]? = some li) (hlt : st.num_lights + k < 4) (j : Fin 4) :
    (calc_lighting_loop c nodes w l st).light_uniforms.get (1 + 4 * (st.num_lights + k) + j.val)
      = c.get_fragment_uniforms nodes li w j := by
  induction l generalizing st k with
  | nil => simp [non_ambient] at hk
  | cons l0 rest ih =>
    have hfull : st.num_lights ≠ max_lights := by simp only [max_lights]; omega
    rw [loop_cons_open c nodes w _ _ _ hfull]
    by_cases ha : l0.kind = atom_ambient
    · have e := step_ambient c nodes w l0 st ha
      have hn : (calc_lighting_step c nodes w l0 st).num_lights = st.num_lights := by rw [e]
      rw [non_ambient_cons_ambient l0 rest ha] at hk
      have := ih (calc_lighting_step c nodes w l0 st) (by rw [hn]; exact h) k hk
        (by rw [hn]; exact hlt)
      rw [hn] at this
      exact this
    · have e := step_non_ambient c nodes w l0 st ha
      have hn : (calc_lighting_step c nodes w l0 st).num_lights = st.num_lights + 1 := by
        rw [e]
      rw [non_ambient_cons_other l0 rest ha] at hk
      cases k with
      | zero =>
        simp only [List.getElem?_cons_zero, Option.some.injEq] at hk
        subst hk
        rw [loop_get_low c nodes w rest _ _ (by omega) (by rw [hn]; omega), e]
        have := write_block_get_block st.light_uniforms (1 + st.num_lights * light_size)
          (c.get_fragment_uniforms nodes l0 w) (by simp only [light_size]; omega) j
        simp only [light_size] at this ⊢
        rw [← this]
        congr 1
        omega
      | succ k =>
        simp only [List.getElem?_cons_succ] at hk
        have := ih (calc_lighting_step c nodes w l0 st) (by rw [hn]; omega) k hk
          (by rw [hn]; omega)
        rw [hn] at this
        rw [← this]
        congr 1
        omega

theorem ambient_colors_cons_ambient (li : light_instance) (rest : List light_instance)
    (h : li.kind = atom_ambient) :
    ambient_colors (li :: rest) = li.color :: ambient_colors rest := by
  simp [ambient_colors, h]

theorem ambient_colors_cons_other (li : light_instance) (rest : List light_instance)
    (h : li.kind ≠ atom_ambient) : ambient_colors (li :: rest) = ambient_colors rest := by
  simp [ambient_colors, h]

theorem scanned_cons_full (m : Nat) (li : light_instance) (rest : List light_instance)
    (h : m = max_lights) : scanned m (li :: rest) = [] := by
  simp [scanned, h]

theorem scanned_cons_ambient (m : Nat) (li : light_instance) (rest : List light_instance)
    (h : m ≠ max_lights) (ha : li.kind = atom_ambient) :
    scanned m (li :: rest) = li :: scanned m rest := by
  simp [scanned, h, ha]

theorem scanned_cons_other (m : Nat) (li : light_instance) (rest : List light_instance)
    (h : m ≠ max_lights) (ha : li.kind ≠ atom_ambient) :
    scanned m (li :: rest) = li :: scanned (m + 1) rest := by
  simp [scanned, h, ha]

theorem loop_ambient (l : List light_instance) (st : lighting_state) :
    (calc_lighting_loop c nodes w l st).light_uniforms.get 0
      = (ambient_colors (scanned st.num_lights l)).foldl (vec4.add c.fp)
          (st.light_uniforms.get 0) := by
  induction l generalizing st with
  | nil => simp [loop_nil, scanned, ambient_colors]
  | cons li rest ih =>
    by_cases hfull : st.num_lights = max_lights
    · rw [loop_cons_full c nodes w _ _ _ hfull, scanned_cons_full _ _ _ hfull]
      simp [ambient_colors]
    · rw [loop_cons_open c nodes w _ _ _ hfull]
      by_cases hk : li.kind = atom_ambient
      · have e := step_ambient c nodes w li st hk
        rw [ih (calc_lighting_step c nodes w li st), scanned_cons_ambient _ _ _ hfull hk,
          ambient_colors_cons_ambient _ _ hk, e]
        simp only [List.foldl_cons]
        rw [uniform_buffer.get_set_self _ _ _ (by omega)]
      · have e := step_non_ambient c nodes w li st hk
        rw [ih (calc_lighting_step c nodes w li st), scanned_cons_other _ _ _ hfull hk,
          ambient_colors_cons_other _ _ hk, e]
        simp only
        rw [write_block_get_of_lt _ _ _ _ (by omega)]

theorem loop_num_ambient (l : List light_instance) (st : lighting_state) :
    (calc_lighting_loop c nodes w l st).num_ambient
      = st.num_ambient + (ambient_colors (scanned st.num_lights l)).length := by
  induction l generalizing st with
  | nil => simp [loop_nil, scanned, ambient_colors]
  | cons li rest ih =>
    by_cases hfull : st.num_lights = max_lights
    · rw [loop_cons_full c nodes w _ _ _ hfull, scanned_cons_full _ _ _ hfull]
      simp [ambient_colors]
    · rw [loop_cons_open c nodes w _ _ _ hfull]
      by_cases hk : li.kind = atom_ambient
      · have e := step_ambient c nodes w li st hk
        rw [ih (calc_lighting_step c nodes w li st), scanned_cons_ambient _ _ _ hfull hk,
          ambient_colors_cons_ambient _ _ hk, e]
        simp only [List.length_cons]
        omega
      · have e := step_non_ambient c nodes w li st hk
        rw [ih (calc_lighting_step c nodes w li st), scanned_cons_other _ _ _ hfull hk,
          ambient_colors_cons_other _ _ hk, e]

end loop

/-! ## Lemmas on `scanned` -/

theorem ambient_colors_eq_nil (l : List light_instance)
    (h : ∀ li ∈ l, li.kind ≠ atom_ambient) : ambient_colors l = [] := by
  induction l with
  | nil => rfl
  | cons li rest ih =>
    rw [ambient_colors_cons_other _ _ (h li (List.mem_cons_self _ _))]
    exact ih (fun x hx => h x (List.mem_cons_of_mem _ hx))

theorem ambient_colors_ne_nil (l : List light_instance)
    (h : ∃ li ∈ l, li.kind = atom_ambient) : ambient_colors l ≠ [] := by
  obtain ⟨li, hmem, hk⟩ := h
  intro hnil
  have : li.color ∈ ambient_colors l := by
    unfold ambient_colors
    exact List.mem_map.2 ⟨li, List.mem_filter.2 ⟨hmem, by simp [hk]⟩, rfl⟩
  rw [hnil] at this
  exact List.not_mem_nil _ this

theorem scanned_initial_segment (m : Nat) (l : List light_instance) : scanned m l <+: l := by
  induction l generalizing m with
  | nil => simp [scanned]
  | cons li rest ih =>
    by_cases hfull : m = max_lights
    · rw [scanned_cons_full _ _ _ hfull]
      exact List.nil_prefix
    · by_cases hk : li.kind = atom_ambient
      · rw [scanned_cons_ambient _ _ _ hfull hk]
        exact (List.prefix_cons_inj li).2 (ih m)
      · rw [scanned_cons_other _ _ _ hfull hk]
        exact (List.prefix_cons_inj li).2 (ih (m + 1))

theorem scanned_ambient_colors (m : Nat) (l : List light_instance)
    (h : ∀ p li rest, l = p ++ li :: rest → li.kind = atom_ambient →
      m + (non_ambient p).length < 4) :
    ambient_colors (scanned m l) = ambient_colors l := by
  induction l generalizing m with
  | nil => simp [scanned]
  | cons l0 rest ih =>
    by_cases hk : l0.kind = atom_ambient
    · have h0 := h [] l0 rest rfl hk
      have hfull : m ≠ max_lights := by
        simp only [max_lights]
        simp only [non_ambient, List.filter_nil, List.length_nil] at h0
        omega
      rw [scanned_cons_ambient _ _ _ hfull hk, ambient_colors_cons_ambient _ _ hk,
        ambient_colors_cons_ambient _ _ hk]
      congr 1
      apply ih
      intro p li r hsplit hamb
      have := h (l0 :: p) li r (by rw [hsplit]; rfl) hamb
      rwa [non_ambient_cons_ambient _ _ hk] at this
    · by_cases hfull : m = max_lights
      · rw [scanned_cons_full _ _ _ hfull, ambient_colors_cons_other _ _ hk]
        symm
        apply ambient_colors_eq_nil
        intro x hx hamb
        obtain ⟨p, r, hsplit⟩ := List.append_of_mem hx
        have := h (l0 :: p) x r (by rw [hsplit]; rfl) hamb
        simp only [max_lights] at hfull
        omega
      · rw [scanned_cons_other _ _ _ hfull hk, ambient_colors_cons_other _ _ hk,
          ambient_colors_cons_other _ _ hk]
        apply ih
        intro p li r hsplit hamb
        have := h (l0 :: p) li r (by rw [hsplit]; rfl) hamb
        rw [non_ambient_cons_other _ _ hk] at this
        simp only [List.length_cons] at this
        omega

theorem scanned_non_ambient_length (m : Nat) (l : List light_instance) (hm : m ≤ 4)
    (h : 4 ≤ m + (non_ambient l).length) :
    (non_ambient (scanned m l)).length = 4 - m := by
  induction l generalizing m with
  | nil =>
    simp only [non_ambient, List.filter_nil, List.length_nil] at h
    simp only [scanned, non_ambient, List.filter_nil, List.length_nil]
    omega
  | cons x rest ih =>
    by_cases hfull : m = max_lights
    · rw [scanned_cons_full _ _ _ hfull]
      simp only [max_lights] at hfull
      simp only [non_ambient, List.filter_nil, List.length_nil]
      omega
    · have hlt : m < 4 := by simp only [max_lights] at hfull; omega
      by_cases hk : x.kind = atom_ambient
      · rw [scanned_cons_ambient _ _ _ hfull hk, non_ambient_cons_ambient _ _ hk]
        rw [non_ambient_cons_ambient _ _ hk] at h
        exact ih m hm h
      · rw [scanned_cons_other _ _ _ hfull hk, non_ambient_cons_other _ _ hk]
        rw [non_ambient_cons_other _ _ hk] at h
        simp only [List.length_cons] at h ⊢
        rw [ih (m + 1) (by omega) (by omega)]
        omega

theorem scanned_shortest (m : Nat) (l q : List light_instance) (hm : m ≤ 4) (hq : q <+: l)
    (h : 4 ≤ m + (non_ambient q).length) : (scanned m l).length ≤ q.length := by
  induction l generalizing m q with
  | nil => simp [scanned]
  | cons x rest ih =>
    by_cases hfull : m = max_lights
    · rw [scanned_cons_full _ _ _ hfull]
      simp
    · have hlt : m < 4 := by simp only [max_lights] at hfull; omega
      rcases List.prefix_cons_iff.1 hq with hnil | ⟨t, ht, hpre⟩
      · rw [hnil] at h
        simp only [non_ambient, List.filter_nil, List.length_nil] at h
        omega
      · subst ht
        by_cases hk : x.kind = atom_ambient
        · rw [scanned_cons_ambient _ _ _ hfull hk]
          rw [non_ambient_cons_ambient _ _ hk] at h
          simp only [List.length_cons]
          exact Nat.succ_le_succ (ih m t hm hpre h)
        · rw [scanned_cons_other _ _ _ hfull hk]
          rw [non_ambient_cons_other _ _ hk] at h
          simp only [List.length_cons] at h ⊢
          exact Nat.succ_le_succ (ih (m + 1) t (by omega) hpre (by omega))

/-! ## Lemmas on `calc_lighting` -/

section lighting
variable (c : collaborators) (w : mat4t) (s : scene)

theorem calc_lighting_num_lights :
    (calc_lighting c w s).num_lights
      = ((min (non_ambient s.light_instances).length 4 : Nat) : Int) := by
  have := loop_num_lights c s.nodes w s.light_instances (calc_lighting_init s)
    (by simp [calc_lighting_init])
  simp only [calc_lighting, this]
  simp [calc_lighting_init]

theorem calc_lighting_num_light_uniforms :
    (calc_lighting c w s).num_light_uniforms = 1 + 4 * (calc_lighting c w s).num_lights := by
  simp only [calc_lighting, light_size]
  push_cast
  ring

theorem calc_lighting_get_pos (i : Nat) (h0 : 0 < i) :
    (calc_lighting c w s).light_uniforms.get i
      = (calc_lighting_loop c s.nodes w s.light_instances
          (calc_lighting_init s)).light_uniforms.get i := by
  simp only [calc_lighting]
  split
  · exact uniform_buffer.get_set_ne _ _ _ _ (by omega)
  · rfl

theorem calc_lighting_ambient :
    (calc_lighting c w s).light_uniforms.get 0
      = if ambient_colors (scanned 0 s.light_instances) = [] then default_ambient
        else (ambient_colors (scanned 0 s.light_instances)).foldl (vec4.add c.fp)
          (vec4.finite 0 0 0 1) := by
  have hamb := loop_ambient c s.nodes w s.light_instances (calc_lighting_init s)
  have hnum := loop_num_ambient c s.nodes w s.light_instances (calc_lighting_init s)
  have h0 : (calc_lighting_init s).num_lights = 0 := rfl
  have h1 : (calc_lighting_init s).num_ambient = 0 := rfl
  have h2 : (calc_lighting_init s).light_uniforms.get 0 = vec4.finite 0 0 0 1 :=
    uniform_buffer.get_set_self _ _ _ (by omega)
  rw [h0, h2] at hamb
  rw [h0, h1] at hnum
  simp only [calc_lighting]
  by_cases hnil : ambient_colors (scanned 0 s.light_instances) = []
  · rw [if_pos hnil, if_pos (by rw [hnum, hnil]; rfl)]
    exact uniform_buffer.get_set_self _ _ _ (by omega)
  · have hlen : (ambient_colors (scanned 0 s.light_instances)).length ≠ 0 := by
      intro h
      exact hnil (List.length_eq_zero.1 h)
    rw [if_neg hnil, if_neg (by rw [hnum]; omega)]
    exact hamb

theorem calc_lighting_block (k : Nat) (li : light_instance)
    (hk : (non_ambient s.light_instances)[k]? = some li) (hlt : k < 4) (j : Fin 4) :
    (calc_lighting c w s).light_uniforms.get (1 + 4 * k + j.val)
      = c.get_fragment_uniforms s.nodes li w j := by
  rw [calc_lighting_get_pos c w s _ (by omega)]
  have := loop_get_block c s.nodes w s.light_instances (calc_lighting_init s)
    (by simp [calc_lighting_init]) k li hk (by simpa [calc_lighting_init] using hlt) j
  simpa [calc_lighting_init] using this

theorem calc_lighting_rest (i : Nat)
    (hi : 1 + 4 * min (non_ambient s.light_instances).length 4 ≤ i) :
    (calc_lighting c w s).light_uniforms.get i = s.light_uniforms.get i := by
  rw [calc_lighting_get_pos c w s _ (by omega)]
  have hn := loop_num_lights c s.nodes w s.light_instances (calc_lighting_init s)
    (by simp [calc_lighting_init])
  rw [loop_get_high c s.nodes w s.light_instances (calc_lighting_init s) i
    (by simp [calc_lighting_init]) (by rw [hn]; simpa [calc_lighting_init] using hi)]
  exact uniform_buffer.get_set_ne _ _ _ _ (by omega)

end lighting



/-! ## Lemmas on the outputs of `calc_lighting` -/

theorem non_ambient_length_le (l : List light_instance) : (non_ambient l).length ≤ l.length :=
  List.length_filter_le _ _

theorem calc_lighting_ambient_default (c : collaborators) (w : mat4t) (s : scene)
    (h : ∀ li ∈ scanned 0 s.light_instances, li.kind ≠ atom_ambient) :
    (calc_lighting c w s).light_uniforms.get 0 = default_ambient := by
  rw [calc_lighting_ambient, if_pos (ambient_colors_eq_nil _ h)]

theorem calc_lighting_outputs_of_loop (c : collaborators) (w : mat4t) (s t : scene)
    (h : calc_lighting_loop c s.nodes w s.light_instances (calc_lighting_init s)
      = calc_lighting_loop c t.nodes w t.light_instances (calc_lighting_init t)) :
    lighting_outputs (calc_lighting c w s) = lighting_outputs (calc_lighting c w t) := by
  simp only [lighting_outputs, calc_lighting, h]

theorem calc_lighting_outputs_initial_segment (c : collaborators) (w : mat4t) (s : scene)
    (p rest : List light_instance) (hsplit : s.light_instances = p ++ rest)
    (hfour : 4 ≤ (non_ambient p).length) :
    lighting_outputs (calc_lighting c w s)
      = lighting_outputs (calc_lighting c w { s with light_instances := p }) := by
  apply calc_lighting_outputs_of_loop
  show calc_lighting_loop c s.nodes w s.light_instances (calc_lighting_init s)
    = calc_lighting_loop c s.nodes w p (calc_lighting_init s)
  rw [hsplit, loop_append]
  apply loop_of_full
  rw [loop_num_lights c s.nodes w p _ (by simp [calc_lighting_init])]
  simp only [calc_lighting_init, max_lights]
  omega

theorem get_eq_of_outputs_eq {s t : scene} (h : lighting_outputs s = lighting_outputs t)
    (i : Nat) : s.light_uniforms.get i = t.light_uniforms.get i := by
  simp only [lighting_outputs, Prod.mk.injEq] at h
  simp only [uniform_buffer.get, h.1]

section meshes
variable (c : collaborators) (os ss : bump_shader) (cam : camera_instance) (c2p : mat4t)
  (s : scene)

theorem render_mesh_rigid (mi : mesh_instance) (h : mi.skel = none ∨ mi.msh.skin = none) :
    render_mesh c os ss cam c2p s mi =
      ([ call.material_render mi.mat os
           (c.get_matrices cam (c.calcModelToWorld s.nodes mi.node)).1
           (c.get_matrices cam (c.calcModelToWorld s.nodes mi.node)).2
           s.light_uniforms.slots s.num_light_uniforms s.num_lights,
         call.mesh_render mi.msh ], true) := by
  unfold render_mesh
  rcases h with h | h
  · simp only [h]
  · simp only [h]
    cases mi.skel <;> rfl

theorem render_mesh_skinned (mi : mesh_instance) (skel : skeleton) (skn : skin)
    (hskel : mi.skel = some skel) (hskn : mi.msh.skin = some skn)
    (hb : skel.num_bones < 64) :
    render_mesh c os ss cam c2p s mi =
      ([ call.skeleton_calc_transforms skel
           (c.get_matrices cam (c.calcModelToWorld s.nodes mi.node)).2 skn,
         call.material_render_skinned mi.mat ss c2p
           (c.calc_transforms skel (c.get_matrices cam (c.calcModelToWorld s.nodes mi.node)).2
             skn)
           skel.num_bones s.light_uniforms.slots s.num_light_uniforms s.num_lights,
         call.mesh_render mi.msh ], true) := by
  unfold render_mesh
  simp only [hskel, hskn, if_pos hb]

theorem render_mesh_assertion (mi : mesh_instance) (skel : skeleton) (skn : skin)
    (hskel : mi.skel = some skel) (hskn : mi.msh.skin = some skn)
    (hb : 64 ≤ skel.num_bones) :
    render_mesh c os ss cam c2p s mi =
      ([ call.skeleton_calc_transforms skel
           (c.get_matrices cam (c.calcModelToWorld s.nodes mi.node)).2 skn ], false) := by
  unfold render_mesh
  simp only [hskel, hskn, if_neg (not_lt.2 hb)]

theorem render_mesh_ends (mi : mesh_instance) :
    (render_mesh c os ss cam c2p s mi).2 = true ↔ bones_below_cap mi := by
  constructor
  · intro h skel skn hskel hskn
    by_contra hb
    rw [render_mesh_assertion c os ss cam c2p s mi skel skn hskel hskn (not_lt.1 hb)] at h
    exact Bool.false_ne_true h
  · intro h
    cases hskel : mi.skel with
    | none => rw [render_mesh_rigid c os ss cam c2p s mi (Or.inl hskel)]
    | some skel =>
      cases hskn : mi.msh.skin with
      | none => rw [render_mesh_rigid c os ss cam c2p s mi (Or.inr hskn)]
      | some skn => rw [render_mesh_skinned c os ss cam c2p s mi skel skn hskel hskn
          (h skel skn hskel hskn)]

theorem render_meshes_cons_ok (k : Nat) (mi : mesh_instance) (rest : List mesh_instance)
    (h : bones_below_cap mi) :
    render_meshes c os ss cam c2p s k (mi :: rest) =
      ((render_mesh c os ss cam c2p s mi).1 :: (render_meshes c os ss cam c2p s (k + 1) rest).1,
        (render_meshes c os ss cam c2p s (k + 1) rest).2) := by
  have h2 := (render_mesh_ends c os ss cam c2p s mi).2 h
  rw [render_meshes]
  rcases hr : render_mesh c os ss cam c2p s mi with ⟨calls, b⟩
  rw [hr] at h2
  simp only at h2
  subst h2
  rfl

theorem render_meshes_cons_fail (k : Nat) (mi : mesh_instance) (rest : List mesh_instance)
    (h : ¬ bones_below_cap mi) :
    render_meshes c os ss cam c2p s k (mi :: rest) =
      ([(render_mesh c os ss cam c2p s mi).1], render_status.assertion_failed k) := by
  have h2 := mt (render_mesh_ends c os ss cam c2p s mi).1 h
  rw [render_meshes]
  rcases hr : render_mesh c os ss cam c2p s mi with ⟨calls, b⟩
  rw [hr] at h2
  simp only [Bool.not_eq_true] at h2
  subst h2
  rfl

theorem render_meshes_append (k : Nat) (pre rest : List mesh_instance)
    (hpre : ∀ x ∈ pre, bones_below_cap x) :
    render_meshes c os ss cam c2p s k (pre ++ rest) =
      (pre.map (fun mi => (render_mesh c os ss cam c2p s mi).1)
          ++ (render_meshes c os ss cam c2p s (k + pre.length) rest).1,
        (render_meshes c os ss cam c2p s (k + pre.length) rest).2) := by
  induction pre generalizing k with
  | nil => simp
  | cons x pre ih =>
    rw [List.cons_append, render_meshes_cons_ok c os ss cam c2p s k x _
      (hpre x (List.mem_cons_self _ _)), ih (k + 1) (fun y hy => hpre y (List.mem_cons_of_mem _ hy))]
    simp only [List.map_cons, List.cons_append, List.length_cons]
    rw [show k + 1 + pre.length = k + (pre.length + 1) by omega]

theorem render_meshes_all (k : Nat) (l : List mesh_instance)
    (h : ∀ x ∈ l, bones_below_cap x) :
    render_meshes c os ss cam c2p s k l =
      (l.map (fun mi => (render_mesh c os ss cam c2p s mi).1), render_status.completed) := by
  have := render_meshes_append c os ss cam c2p s k l [] h
  rw [List.append_nil] at this
  rw [this]
  simp [render_meshes]

theorem render_meshes_head (k : Nat) (mi : mesh_instance) (rest : List mesh_instance) :
    (render_meshes c os ss cam c2p s k (mi :: rest)).1[0]?
      = some (render_mesh c os ss cam c2p s mi).1 := by
  by_cases h : bones_below_cap mi
  · rw [render_meshes_cons_ok c os ss cam c2p s k mi rest h]
    simp
  · rw [render_meshes_cons_fail c os ss cam c2p s k mi rest h]
    simp

theorem render_meshes_reached (k : Nat) (pre : List mesh_instance) (mi : mesh_instance)
    (post : List mesh_instance) (hpre : ∀ x ∈ pre, bones_below_cap x) :
    (render_meshes c os ss cam c2p s k (pre ++ mi :: post)).1[pre.length]?
      = some (render_mesh c os ss cam c2p s mi).1 := by
  rw [render_meshes_append c os ss cam c2p s k pre _ hpre]
  simp only
  rw [List.getElem?_append_right (by simp)]
  simp only [List.length_map, Nat.sub_self]
  exact render_meshes_head c os ss cam c2p s _ mi post

end meshes

/-! ## Lemmas on `render_impl_body` -/

section impl
variable (c : collaborators) (os ss : bump_shader) (cam : camera_instance) (a : float) (s : scene)

theorem render_body_cam :
    (render_impl_body c os ss cam a s).cam
      = cam.set_cameraToWorld (c.calcModelToWorld s.nodes cam.node) a := by
  unfold render_impl_body
  dsimp only
  split <;> rfl

theorem render_body_dispatches :
    (render_impl_body c os ss cam a s).dispatches
      = (render_meshes c os ss (cam.set_cameraToWorld (c.calcModelToWorld s.nodes cam.node) a)
          (c.get_cameraToProjection
            (cam.set_cameraToWorld (c.calcModelToWorld s.nodes cam.node) a))
          (calc_lighting c (mat4t.invertQuick (c.calcModelToWorld s.nodes cam.node)) s) 0
          s.mesh_instances).1 := by
  unfold render_impl_body
  dsimp only
  split <;> rfl

theorem render_body_status :
    (render_impl_body c os ss cam a s).status
      = (render_meshes c os ss (cam.set_cameraToWorld (c.calcModelToWorld s.nodes cam.node) a)
          (c.get_cameraToProjection
            (cam.set_cameraToWorld (c.calcModelToWorld s.nodes cam.node) a))
          (calc_lighting c (mat4t.invertQuick (c.calcModelToWorld s.nodes cam.node)) s) 0
          s.mesh_instances).2 := by
  unfold render_impl_body
  dsimp only
  split
  · rename_i h; exact h.symm
  · rename_i h; exact h.symm

theorem render_body_state_completed
    (h : (render_impl_body c os ss cam a s).status = render_status.completed) :
    (render_impl_body c os ss cam a s).state
      = { calc_lighting c (mat4t.invertQuick (c.calcModelToWorld s.nodes cam.node)) s with
          frame_number := wrap_int (s.frame_number + 1) } := by
  rw [render_body_status] at h
  unfold render_impl_body
  dsimp only
  split
  · rfl
  · rename_i i hm
    exact absurd (hm.symm.trans h) (fun h => render_status.noConfusion h)

theorem render_body_state_failed
    (h : (render_impl_body c os ss cam a s).status ≠ render_status.completed) :
    (render_impl_body c os ss cam a s).state
      = calc_lighting c (mat4t.invertQuick (c.calcModelToWorld s.nodes cam.node)) s := by
  rw [render_body_status] at h
  unfold render_impl_body
  dsimp only
  split
  · rename_i hm
    exact absurd hm h
  · rfl

theorem render_body_state_untouched :
    (render_impl_body c os ss cam a s).state.nodes = s.nodes ∧
      (render_impl_body c os ss cam a s).state.children = s.children ∧
      (render_impl_body c os ss cam a s).state.mesh_instances = s.mesh_instances ∧
      (render_impl_body c os ss cam a s).state.animation_instances = s.animation_instances ∧
      (render_impl_body c os ss cam a s).state.camera_instances = s.camera_instances ∧
      (render_impl_body c os ss cam a s).state.light_instances = s.light_instances ∧
      (render_impl_body c os ss cam a s).state.cameras = s.cameras := by
  by_cases h : (render_impl_body c os ss cam a s).status = render_status.completed
  · rw [render_body_state_completed c os ss cam a s h]
    exact ⟨rfl, rfl, rfl, rfl, rfl, rfl, rfl⟩
  · rw [render_body_state_failed c os ss cam a s h]
    exact ⟨rfl, rfl, rfl, rfl, rfl, rfl, rfl⟩

theorem render_body_reached (pre : List mesh_instance) (mi : mesh_instance)
    (post : List mesh_instance) (hsplit : s.mesh_instances = pre ++ mi :: post)
    (hpre : ∀ x ∈ pre, bones_below_cap x) :
    (render_impl_body c os ss cam a s).dispatches[pre.length]?
      = some (render_mesh c os ss (render_impl_body c os ss cam a s).cam
          (c.get_cameraToProjection (render_impl_body c os ss cam a s).cam)
          (render_impl_body c os ss cam a s).state mi).1 := by
  have hm : render_mesh c os ss (render_impl_body c os ss cam a s).cam
      (c.get_cameraToProjection (render_impl_body c os ss cam a s).cam)
      (render_impl_body c os ss cam a s).state mi
      = render_mesh c os ss (render_impl_body c os ss cam a s).cam
      (c.get_cameraToProjection (render_impl_body c os ss cam a s).cam)
      (calc_lighting c (mat4t.invertQuick (c.calcModelToWorld s.nodes cam.node)) s) mi := by
    by_cases h : (render_impl_body c os ss cam a s).status = render_status.completed
    · rw [render_body_state_completed c os ss cam a s h]
      rfl
    · rw [render_body_state_failed c os ss cam a s h]
  rw [hm, render_body_cam, render_body_dispatches, hsplit]
  exact render_meshes_reached c os ss _ _ _ 0 pre mi post hpre

theorem render_body_aborts (pre : List mesh_instance) (mi : mesh_instance)
    (post : List mesh_instance) (hsplit : s.mesh_instances = pre ++ mi :: post)
    (hpre : ∀ x ∈ pre, bones_below_cap x) (hmi : ¬ bones_below_cap mi) :
    (render_impl_body c os ss cam a s).status = render_status.assertion_failed pre.length ∧
      (render_impl_body c os ss cam a s).dispatches.length = pre.length + 1 ∧
      (render_impl_body c os ss cam a s).state.frame_number = s.frame_number := by
  have hst : (render_impl_body c os ss cam a s).status = render_status.assertion_failed pre.length := by
    rw [render_body_status, hsplit, render_meshes_append c os ss _ _ _ 0 pre _ hpre,
      render_meshes_cons_fail c os ss _ _ _ _ mi post hmi]
    simp
  refine ⟨hst, ?_, ?_⟩
  · rw [render_body_dispatches, hsplit, render_meshes_append c os ss _ _ _ 0 pre _ hpre,
      render_meshes_cons_fail c os ss _ _ _ _ mi post hmi]
    simp
  · rw [render_body_state_failed c os ss cam a s
      (by rw [hst]; exact fun h => render_status.noConfusion h)]
    rfl

theorem render_body_completes (hall : ∀ x ∈ s.mesh_instances, bones_below_cap x) :
    (render_impl_body c os ss cam a s).status = render_status.completed ∧
      (render_impl_body c os ss cam a s).dispatches.length = s.mesh_instances.length ∧
      (render_impl_body c os ss cam a s).state.frame_number
        = wrap_int (s.frame_number + 1) := by
  have hst : (render_impl_body c os ss cam a s).status = render_status.completed := by
    rw [render_body_status, render_meshes_all c os ss _ _ _ 0 _ hall]
  refine ⟨hst, ?_, ?_⟩
  · rw [render_body_dispatches, render_meshes_all c os ss _ _ _ 0 _ hall]
    simp
  · rw [render_body_state_completed c os ss cam a s hst]

end impl

/-! ## Lemmas on the bone-count assertion and on rendering twice -/

theorem bones_below_cap_rigid (mi : mesh_instance) (h : mi.skel = none ∨ mi.msh.skin = none) :
    bones_below_cap mi := by
  intro skel skn h1 h2
  rcases h with h | h
  · rw [h] at h1; exact Option.noConfusion h1
  · rw [h] at h2; exact Option.noConfusion h2

theorem bones_below_cap_skinned (mi : mesh_instance) (skel : skeleton) (skn : skin)
    (hskel : mi.skel = some skel) (hskn : mi.msh.skin = some skn) :
    bones_below_cap mi ↔ skel.num_bones < 64 := by
  constructor
  · intro h
    exact h skel skn hskel hskn
  · intro h skel' skn' h1 _
    rw [hskel] at h1
    cases h1
    exact h

section ref
variable (c : collaborators) (os ss : bump_shader) (cam : camera_ref) (a : float) (s : scene)

theorem render_mesh_cameras (cam0 : camera_instance) (c2p : mat4t) (mi : mesh_instance)
    (cams : List camera_instance) :
    render_mesh c os ss cam0 c2p { s with cameras := cams } mi
      = render_mesh c os ss cam0 c2p s mi := rfl

theorem render_impl_state_untouched :
    (render_impl c os ss cam a s).state.nodes = s.nodes ∧
      (render_impl c os ss cam a s).state.children = s.children ∧
      (render_impl c os ss cam a s).state.mesh_instances = s.mesh_instances ∧
      (render_impl c os ss cam a s).state.animation_instances = s.animation_instances ∧
      (render_impl c os ss cam a s).state.camera_instances = s.camera_instances ∧
      (render_impl c os ss cam a s).state.light_instances = s.light_instances ∧
      (render_impl c os ss cam a s).state.cameras
        = s.cameras.set cam (render_impl c os ss cam a s).cam := by
  have h := render_body_state_untouched c os ss (s.cameras.getD cam c.new_camera_instance) a s
  refine ⟨h.1, h.2.1, h.2.2.1, h.2.2.2.1, h.2.2.2.2.1, h.2.2.2.2.2.1, ?_⟩
  show ((render_impl_body c os ss _ a s).state.cameras).set cam _ = _
  rw [h.2.2.2.2.2.2]
  rfl

theorem render_impl_reached (pre : List mesh_instance) (mi : mesh_instance)
    (post : List mesh_instance) (hsplit : s.mesh_instances = pre ++ mi :: post)
    (hpre : ∀ x ∈ pre, bones_below_cap x) :
    (render_impl c os ss cam a s).dispatches[pre.length]?
      = some (render_mesh c os ss (render_impl c os ss cam a s).cam
          (c.get_cameraToProjection (render_impl c os ss cam a s).cam)
          (render_impl c os ss cam a s).state mi).1 :=
  render_body_reached c os ss (s.cameras.getD cam c.new_camera_instance) a s pre mi post hsplit
    hpre

theorem render_impl_aborts (pre : List mesh_instance) (mi : mesh_instance)
    (post : List mesh_instance) (hsplit : s.mesh_instances = pre ++ mi :: post)
    (hpre : ∀ x ∈ pre, bones_below_cap x) (hmi : ¬ bones_below_cap mi) :
    (render_impl c os ss cam a s).status = render_status.assertion_failed pre.length ∧
      (render_impl c os ss cam a s).dispatches.length = pre.length + 1 ∧
      (render_impl c os ss cam a s).state.frame_number = s.frame_number :=
  render_body_aborts c os ss (s.cameras.getD cam c.new_camera_instance) a s pre mi post hsplit
    hpre hmi

theorem render_impl_completes (hall : ∀ x ∈ s.mesh_instances, bones_below_cap x) :
    (render_impl c os ss cam a s).status = render_status.completed ∧
      (render_impl c os ss cam a s).dispatches.length = s.mesh_instances.length ∧
      (render_impl c os ss cam a s).state.frame_number = wrap_int (s.frame_number + 1) :=
  render_body_completes c os ss (s.cameras.getD cam c.new_camera_instance) a s hall

theorem render_impl_state_eq :
    (render_impl c os ss cam a s).state
      = { calc_lighting c (mat4t.invertQuick (c.calcModelToWorld s.nodes
            (s.cameras.getD cam c.new_camera_instance).node)) s with
          frame_number :=
            if (render_impl c os ss cam a s).status = render_status.completed
            then wrap_int (s.frame_number + 1) else s.frame_number
          cameras := s.cameras.set cam (render_impl c os ss cam a s).cam } := by
  by_cases h : (render_impl c os ss cam a s).status = render_status.completed
  · rw [if_pos h]
    show ({ (render_impl_body c os ss _ a s).state with
      cameras := (render_impl_body c os ss _ a s).state.cameras.set cam _ } : scene) = _
    rw [render_body_state_completed c os ss _ a s h]
    rfl
  · rw [if_neg h]
    show ({ (render_impl_body c os ss _ a s).state with
      cameras := (render_impl_body c os ss _ a s).state.cameras.set cam _ } : scene) = _
    rw [render_body_state_failed c os ss _ a s h]
    rfl

end ref

/-! ## Lemmas on `get_first_mesh_instance` -/

theorem get_first_loop_some_iff (node : node_ref) (l : List mesh_instance) (mi : mesh_instance) :
    get_first_mesh_instance_loop node l = some mi ↔
      ∃ i : Nat, l[i]? = some mi ∧ mi.node = node ∧
        ∀ (j : Nat) (mj : mesh_instance), j < i → l[j]? = some mj → mj.node ≠ node := by
  induction l with
  | nil => simp [get_first_mesh_instance_loop]
  | cons x rest ih =>
    by_cases hx : x.node = node
    · simp only [get_first_mesh_instance_loop, if_pos hx, Option.some.injEq]
      constructor
      · intro h
        subst h
        exact ⟨0, List.getElem?_cons_zero, hx, fun j mj hj => absurd hj (Nat.not_lt_zero j)⟩
      · rintro ⟨i, hi, _, hmin⟩
        cases i with
        | zero => simpa using hi
        | succ k => exact absurd hx (hmin 0 x (Nat.succ_pos k) List.getElem?_cons_zero)
    · simp only [get_first_mesh_instance_loop, if_neg hx, ih]
      constructor
      · rintro ⟨i, hi, hn, hmin⟩
        refine ⟨i + 1, by simpa using hi, hn, fun j mj hj hmj => ?_⟩
        cases j with
        | zero =>
          simp only [List.getElem?_cons_zero, Option.some.injEq] at hmj
          subst hmj
          exact hx
        | succ k => exact hmin k mj (by omega) (by simpa using hmj)
      · rintro ⟨i, hi, hn, hmin⟩
        cases i with
        | zero =>
          simp only [List.getElem?_cons_zero, Option.some.injEq] at hi
          subst hi
          exact absurd hn hx
        | succ k =>
          exact ⟨k, by simpa using hi, hn,
            fun j mj hj hmj => hmin (j + 1) mj (by omega) (by simpa using hmj)⟩

theorem get_first_loop_none_iff (node : node_ref) (l : List mesh_instance) :
    get_first_mesh_instance_loop node l = none ↔ ∀ mi ∈ l, mi.node ≠ node := by
  induction l with
  | nil => simp [get_first_mesh_instance_loop]
  | cons x rest ih =>
    by_cases hx : x.node = node
    · simp [get_first_mesh_instance_loop, hx]
    · simp [get_first_mesh_instance_loop, hx, ih]

theorem get_first_loop_append (node : node_ref) (l₁ l₂ : List mesh_instance) :
    get_first_mesh_instance_loop node (l₁ ++ l₂) =
      match get_first_mesh_instance_loop node l₁ with
      | some mi => some mi
      | none => get_first_mesh_instance_loop node l₂ := by
  induction l₁ with
  | nil => rfl
  | cons x rest ih =>
    by_cases hx : x.node = node
    · simp [get_first_mesh_instance_loop, hx]
    · rw [List.cons_append, get_first_mesh_instance_loop, if_neg hx, ih,
        get_first_mesh_instance_loop, if_neg hx]

/-! ## Lemmas on `create_default_camera_and_lights` -/

theorem access_nodeToParent_fields (s : scene) (node : node_ref) (op : mat4t → mat4t) :
    (access_nodeToParent s node op).nodes.length = s.nodes.length ∧
      (access_nodeToParent s node op).children = s.children ∧
      (access_nodeToParent s node op).camera_instances = s.camera_instances ∧
      (access_nodeToParent s node op).light_instances = s.light_instances ∧
      (access_nodeToParent s node op).cameras = s.cameras := by
  unfold access_nodeToParent
  split
  · exact ⟨by simp, rfl, rfl, rfl, rfl⟩
  · exact ⟨rfl, rfl, rfl, rfl, rfl⟩

theorem create_default_camera_of_ne (c : collaborators) (s : scene)
    (h : s.camera_instances ≠ []) : create_default_camera c s = s := by
  unfold create_default_camera
  rw [if_neg (fun h0 => h (List.length_eq_zero.1 h0))]

theorem create_default_light_of_ne (c : collaborators) (s : scene)
    (h : s.light_instances ≠ []) : create_default_light c s = s := by
  unfold create_default_light
  rw [if_neg (fun h0 => h (List.length_eq_zero.1 h0))]

theorem create_default_camera_of_nil (c : collaborators) (s : scene)
    (h : s.camera_instances = []) :
    (create_default_camera c s).camera_instances = [s.cameras.length] ∧
      (create_default_camera c s).cameras
        = s.cameras ++ [{ c.new_camera_instance with
            node := s.nodes.length
            perspective := (finite 1, finite 1, finite 1, finite (1 / 10), finite 5000) }] ∧
      (create_default_camera c s).light_instances = s.light_instances ∧
      (create_default_camera c s).nodes.length = s.nodes.length + 1 ∧
      (create_default_camera c s).children = s.children ++ [s.nodes.length] := by
  unfold create_default_camera
  rw [if_pos (by rw [h]; rfl)]
  have hf := access_nodeToParent_fields (add_scene_node s).1 (add_scene_node s).2
    (fun m => mat4t.translate m (finite 0) (finite 0) (finite 100))
  refine ⟨?_, ?_, ?_, ?_, ?_⟩
  · show (access_nodeToParent _ _ _).camera_instances
      ++ [(access_nodeToParent _ _ _).cameras.length] = _
    rw [hf.2.2.1, hf.2.2.2.2]
    show s.camera_instances ++ [s.cameras.length] = _
    rw [h]
    rfl
  · show (access_nodeToParent _ _ _).cameras ++ _ = _
    rw [hf.2.2.2.2]
    rfl
  · show (access_nodeToParent _ _ _).light_instances = _
    rw [hf.2.2.2.1]
    rfl
  · show (access_nodeToParent _ _ _).nodes.length = _
    rw [hf.1]
    simp [add_scene_node]
  · show (access_nodeToParent _ _ _).children = _
    rw [hf.2.1]
    rfl

theorem create_default_light_of_nil (c : collaborators) (s : scene)
    (h : s.light_instances = []) :
    (create_default_light c s).light_instances
        = [{ c.new_light_instance with kind := atom_directional, node := s.nodes.length }] ∧
      (create_default_light c s).camera_instances = s.camera_instances ∧
      (create_default_light c s).nodes.length = s.nodes.length + 1 ∧
      (create_default_light c s).children = s.children ++ [s.nodes.length] := by
  unfold create_default_light
  rw [if_pos (by rw [h]; rfl)]
  have h1 := access_nodeToParent_fields (add_scene_node s).1 (add_scene_node s).2
    (fun m => mat4t.translate m (finite 100) (finite 100) (finite 100))
  have h2 := access_nodeToParent_fields
    (access_nodeToParent (add_scene_node s).1 (add_scene_node s).2
      (fun m => mat4t.translate m (finite 100) (finite 100) (finite 100))) (add_scene_node s).2
    (fun m => mat4t.rotateX m (finite 45))
  have h3 := access_nodeToParent_fields
    (access_nodeToParent
      (access_nodeToParent (add_scene_node s).1 (add_scene_node s).2
        (fun m => mat4t.translate m (finite 100) (finite 100) (finite 100))) (add_scene_node s).2
      (fun m => mat4t.rotateX m (finite 45))) (add_scene_node s).2
    (fun m => mat4t.rotateY m (finite 45))
  refine ⟨?_, ?_, ?_, ?_⟩
  · show (access_nodeToParent _ _ _).light_instances ++ _ = _
    rw [h3.2.2.2.1, h2.2.2.2.1, h1.2.2.2.1]
    show s.light_instances ++ _ = _
    rw [h]
    rfl
  · show (access_nodeToParent _ _ _).camera_instances = _
    rw [h3.2.2.1, h2.2.2.1, h1.2.2.1]
    rfl
  · show (access_nodeToParent _ _ _).nodes.length = _
    rw [h3.1, h2.1, h1.1]
    simp [add_scene_node]
  · show (access_nodeToParent _ _ _).children = _
    rw [h3.2.1, h2.2.1, h1.2.1]
    rfl

theorem create_default_camera_fields (c : collaborators) (s : scene) :
    (create_default_camera c s).camera_instances ≠ [] ∧
      (create_default_camera c s).light_instances = s.light_instances ∧
      (create_default_camera c s).nodes.length
        = s.nodes.length + (if s.camera_instances = [] then 1 else 0) ∧
      (create_default_camera c s).children.length
        = s.children.length + (if s.camera_instances = [] then 1 else 0) := by
  by_cases h : s.camera_instances = []
  · have := create_default_camera_of_nil c s h
    rw [this.1, this.2.2.1, this.2.2.2.1, this.2.2.2.2, if_pos h]
    simp
  · rw [create_default_camera_of_ne c s h, if_neg h]
    exact ⟨h, rfl, rfl, rfl⟩

theorem create_default_light_fields (c : collaborators) (s : scene) :
    (create_default_light c s).light_instances ≠ [] ∧
      (create_default_light c s).camera_instances = s.camera_instances ∧
      (create_default_light c s).nodes.length
        = s.nodes.length + (if s.light_instances = [] then 1 else 0) ∧
      (create_default_light c s).children.length
        = s.children.length + (if s.light_instances = [] then 1 else 0) := by
  by_cases h : s.light_instances = []
  · have := create_default_light_of_nil c s h
    rw [this.1, this.2.1, this.2.2.1, this.2.2.2, if_pos h]
    simp
  · rw [create_default_light_of_ne c s h, if_neg h]
    exact ⟨h, rfl, rfl, rfl⟩

theorem create_default_of_ne (c : collaborators) (s : scene)
    (hc : s.camera_instances ≠ []) (hl : s.light_instances ≠ []) :
    create_default_camera_and_lights c s = s := by
  unfold create_default_camera_and_lights
  rw [create_default_camera_of_ne c s hc, create_default_light_of_ne c s hl]

/-! ## Lemmas on the trace of the mesh loop, on `wrap_int` and on float addition -/

theorem render_meshes_entries (c : collaborators) (os ss : bump_shader) (cam : camera_instance)
    (c2p : mat4t) (s : scene) (k : Nat) (l : List mesh_instance) (i : Nat)
    (hi : i < (render_meshes c os ss cam c2p s k l).1.length) :
    i < l.length ∧ ∀ x ∈ l.take i, bones_below_cap x := by
  induction l generalizing k i with
  | nil => simp [render_meshes] at hi
  | cons x rest ih =>
    by_cases hx : bones_below_cap x
    · rw [render_meshes_cons_ok c os ss cam c2p s k x rest hx] at hi
      cases i with
      | zero => simp
      | succ j =>
        simp only [List.length_cons, Nat.add_lt_add_iff_right] at hi
        have h := ih (k + 1) j hi
        refine ⟨by simp only [List.length_cons]; omega, ?_⟩
        intro y hy
        simp only [List.take_succ_cons, List.mem_cons] at hy
        rcases hy with hy | hy
        · rw [hy]; exact hx
        · exact h.2 y hy
    · rw [render_meshes_cons_fail c os ss cam c2p s k x rest hx] at hi
      simp only [List.length_cons, List.length_nil, Nat.zero_add, Nat.lt_one_iff] at hi
      subst hi
      simp

theorem render_impl_entries (c : collaborators) (os ss : bump_shader) (cam : camera_ref)
    (a : float) (s : scene) (i : Nat) (hi : i < (render_impl c os ss cam a s).dispatches.length) :
    i < s.mesh_instances.length ∧ ∀ x ∈ s.mesh_instances.take i, bones_below_cap x := by
  have hd : (render_impl c os ss cam a s).dispatches
      = (render_impl_body c os ss (s.cameras.getD cam c.new_camera_instance) a s).dispatches :=
    rfl
  rw [hd, render_body_dispatches] at hi
  exact render_meshes_entries c os ss _ _ _ 0 s.mesh_instances i hi

theorem render_impl_all_rigid (c : collaborators) (os ss : bump_shader) (cam : camera_ref)
    (a : float) (s : scene)
    (hall : ∀ mi ∈ s.mesh_instances, mi.skel = none ∨ mi.msh.skin = none) :
    (render_impl c os ss cam a s).dispatches
      = s.mesh_instances.map (fun mi =>
          [ call.material_render mi.mat os
              (c.get_matrices (render_impl c os ss cam a s).cam
                (c.calcModelToWorld s.nodes mi.node)).1
              (c.get_matrices (render_impl c os ss cam a s).cam
                (c.calcModelToWorld s.nodes mi.node)).2
              (render_impl c os ss cam a s).state.light_uniforms.slots
              (render_impl c os ss cam a s).state.num_light_uniforms
              (render_impl c os ss cam a s).state.num_lights,
            call.mesh_render mi.msh ]) := by
  have hd : (render_impl c os ss cam a s).dispatches
      = (render_impl_body c os ss (s.cameras.getD cam c.new_camera_instance) a s).dispatches :=
    rfl
  have hok : ∀ x ∈ s.mesh_instances, bones_below_cap x :=
    fun x hx => bones_below_cap_rigid x (hall x hx)
  have hst := render_impl_state_eq c os ss cam a s
  have hcam : (render_impl c os ss cam a s).cam
      = (s.cameras.getD cam c.new_camera_instance).set_cameraToWorld
          (c.calcModelToWorld s.nodes (s.cameras.getD cam c.new_camera_instance).node) a :=
    render_body_cam c os ss _ a s
  rw [hd, render_body_dispatches, render_meshes_all c os ss _ _ _ 0 _ hok]
  apply List.map_congr_left
  intro mi hmi
  rw [render_mesh_rigid _ _ _ _ _ _ mi (hall mi hmi), hcam, hst]
  rfl

theorem wrap_int_of_range (x : Int) (h1 : -2147483648 ≤ x) (h2 : x < 2147483648) :
    wrap_int x = x := by
  unfold wrap_int
  omega

theorem float_add_one_one (fp : float_arithmetic) :
    fp.add (finite 1) (finite 1) = finite 2 := by
  have h := fp.add_small_int 1 1 (by decide) (by decide)
  norm_num at h
  exact h

theorem create_default_light_cameras (c : collaborators) (s : scene) :
    (create_default_light c s).cameras = s.cameras := by
  by_cases h : s.light_instances = []
  · unfold create_default_light
    rw [if_pos (by rw [h]; rfl)]
    have h1 := access_nodeToParent_fields (add_scene_node s).1 (add_scene_node s).2
      (fun m => mat4t.translate m (finite 100) (finite 100) (finite 100))
    have h2 := access_nodeToParent_fields
      (access_nodeToParent (add_scene_node s).1 (add_scene_node s).2
        (fun m => mat4t.translate m (finite 100) (finite 100) (finite 100))) (add_scene_node s).2
      (fun m => mat4t.rotateX m (finite 45))
    have h3 := access_nodeToParent_fields
      (access_nodeToParent
        (access_nodeToParent (add_scene_node s).1 (add_scene_node s).2
          (fun m => mat4t.translate m (finite 100) (finite 100) (finite 100)))
        (add_scene_node s).2 (fun m => mat4t.rotateX m (finite 45))) (add_scene_node s).2
      (fun m => mat4t.rotateY m (finite 45))
    show (access_nodeToParent _ _ _).cameras = _
    rw [h3.2.2.2.2, h2.2.2.2.2, h1.2.2.2.2]
    rfl
  · rw [create_default_light_of_ne c s h]

/-! ## The claims on `scene::calc_lighting` -/

/-- C1: after `calc_lighting`, `num_lights` is the minimum of 4 and the number
of non-ambient lights, `num_light_uniforms` is `1 + 4 * num_lights`, for every
`k < num_lights` the four slots from `1 + 4 * k` hold the block emitted by the
`k`-th non-ambient light of the collection, and every slot from
`1 + 4 * num_lights` on keeps its former content (the lights beyond the
fourth write nothing; the function is total, so there is no error). -/
theorem C1_calc_lighting_active_lights (c : collaborators) (w : mat4t) (s : scene) :
    (calc_lighting c w s).num_lights
        = ((min (non_ambient s.light_instances).length 4 : Nat) : Int) ∧
      (calc_lighting c w s).num_light_uniforms = 1 + 4 * (calc_lighting c w s).num_lights ∧
      (∀ (k : Nat) (li : light_instance), k < 4 →
        (non_ambient s.light_instances)[k]? = some li →
        ∀ j : Fin 4, (calc_lighting c w s).light_uniforms.get (1 + 4 * k + j.val)
          = c.get_fragment_uniforms s.nodes li w j) ∧
      (∀ i, 1 + 4 * min (non_ambient s.light_instances).length 4 ≤ i →
        (calc_lighting c w s).light_uniforms.get i = s.light_uniforms.get i) :=
  ⟨calc_lighting_num_lights c w s, calc_lighting_num_light_uniforms c w s,
    fun k li hlt hk j => calc_lighting_block c w s k li hk hlt j,
    fun i hi => calc_lighting_rest c w s i hi⟩

/-- C1 at six lights, five of them non-ambient: four active lights, 17
uniforms, and slot 14 (block 3, offset 1) holds what the fourth directional
light emits. -/
theorem C1_calc_lighting_active_lights_witness :
    (calc_lighting sample_collaborators mat4t.identity
        (with_lights [sample_directional, sample_ambient, sample_directional,
          sample_directional, sample_directional, sample_directional])).num_lights = 4 ∧
      (calc_lighting sample_collaborators mat4t.identity
        (with_lights [sample_directional, sample_ambient, sample_directional,
          sample_directional, sample_directional, sample_directional])).num_light_uniforms
        = 17 ∧
      (calc_lighting sample_collaborators mat4t.identity
        (with_lights [sample_directional, sample_ambient, sample_directional,
          sample_directional, sample_directional, sample_directional])).light_uniforms.get 14
        = vec4.finite 1 1 1 1 := by
  have h := C1_calc_lighting_active_lights sample_collaborators mat4t.identity
    (with_lights [sample_directional, sample_ambient, sample_directional,
      sample_directional, sample_directional, sample_directional])
  obtain ⟨h1, h2, h3, -⟩ := h
  have e : (min (non_ambient (with_lights [sample_directional, sample_ambient,
      sample_directional, sample_directional, sample_directional,
      sample_directional]).light_instances).length 4 : Nat) = 4 := by decide
  rw [e] at h1
  refine ⟨h1, ?_, ?_⟩
  · rw [h2, h1]; rfl
  · have := h3 3 sample_directional (by decide) (by decide) 1
    simpa [sample_collaborators, sample_directional, vec4.finite] using this

/-- C2, amended: when the collection has an ambient light and every ambient
light is preceded by fewer than four non-ambient lights, `light_uniforms[0]`
is what `+=` makes of `(0, 0, 0, 1)`, the value the accumulator starts from,
when the colours of all ambient lights are added to it one after the other,
in collection order, with the addition of floats on each component; nothing
is divided by the number of lights. -/
theorem C2_calc_lighting_ambient_sum (c : collaborators) (w : mat4t) (s : scene)
    (hsome : ∃ li ∈ s.light_instances, li.kind = atom_ambient)
    (hpos : ∀ p li rest, s.light_instances = p ++ li :: rest → li.kind = atom_ambient →
      (non_ambient p).length < 4) :
    (calc_lighting c w s).light_uniforms.get 0
      = (ambient_colors s.light_instances).foldl (vec4.add c.fp) (vec4.finite 0 0 0 1) := by
  have hsc : ambient_colors (scanned 0 s.light_instances) = ambient_colors s.light_instances :=
    scanned_ambient_colors 0 s.light_instances
      (fun p li rest h1 h2 => by have := hpos p li rest h1 h2; omega)
  rw [calc_lighting_ambient, hsc, if_neg (ambient_colors_ne_nil _ hsome)]

/-- C2, amended, at two ambient lights around a directional one, with
additions that do not round: the output is `(0.4, 0.4, 0.4, 3)`. -/
theorem C2_calc_lighting_ambient_sum_witness :
    (∃ li ∈ (with_lights [sample_ambient, sample_directional, sample_ambient]).light_instances,
        li.kind = atom_ambient) ∧
      (calc_lighting sample_collaborators mat4t.identity
        (with_lights [sample_ambient, sample_directional, sample_ambient])).light_uniforms.get 0
        = vec4.finite (2/5) (2/5) (2/5) 3 := by
  have hsome : ∃ li ∈ (with_lights [sample_ambient, sample_directional,
      sample_ambient]).light_instances, li.kind = atom_ambient :=
    ⟨sample_ambient, by simp [with_lights], rfl⟩
  refine ⟨hsome, ?_⟩
  rw [C2_calc_lighting_ambient_sum sample_collaborators mat4t.identity
    (with_lights [sample_ambient, sample_directional, sample_ambient]) hsome ?_]
  · have hs : ambient_colors (with_lights [sample_ambient, sample_directional,
        sample_ambient]).light_instances
        = [vec4.finite (1/5) (1/5) (1/5) 1, vec4.finite (1/5) (1/5) (1/5) 1] := rfl
    rw [hs]
    simp only [List.foldl_cons, List.foldl_nil, vec4.add, vec4.finite, sample_collaborators,
      sample_arithmetic, exact_add]
    norm_num
  · intro p li rest hsplit _
    have hlen := congrArg List.length hsplit
    have := non_ambient_length_le p
    simp [with_lights] at hlen
    omega

/-- C2 fails as stated. With a single ambient light, of colour
`(0.2, 0.2, 0.2, 1)`, the output is `(0.2, 0.2, 0.2, 2)`, not that colour; and
with that ambient light behind four directional lights the output is the
default `(0.5, 0.5, 0.5, 1)`, not that colour. -/
theorem C2_counterexample :
    (ambient_colors (with_lights [sample_ambient]).light_instances
        = [vec4.finite (1/5) (1/5) (1/5) 1] ∧
      (calc_lighting sample_collaborators mat4t.identity
        (with_lights [sample_ambient])).light_uniforms.get 0 = vec4.finite (1/5) (1/5) (1/5) 2 ∧
      (calc_lighting sample_collaborators mat4t.identity
        (with_lights [sample_ambient])).light_uniforms.get 0
        ≠ vec4.finite (1/5) (1/5) (1/5) 1) ∧
    (ambient_colors (with_lights [sample_directional, sample_directional, sample_directional,
        sample_directional, sample_ambient]).light_instances
        = [vec4.finite (1/5) (1/5) (1/5) 1] ∧
      (calc_lighting sample_collaborators mat4t.identity
        (with_lights [sample_directional, sample_directional, sample_directional,
          sample_directional, sample_ambient])).light_uniforms.get 0
        = vec4.finite (1/2) (1/2) (1/2) 1 ∧
      (calc_lighting sample_collaborators mat4t.identity
        (with_lights [sample_directional, sample_directional, sample_directional,
          sample_directional, sample_ambient])).light_uniforms.get 0
        ≠ vec4.finite (1/5) (1/5) (1/5) 1) := by
  have e1 : (calc_lighting sample_collaborators mat4t.identity
      (with_lights [sample_ambient])).light_uniforms.get 0
      = vec4.finite (1/5) (1/5) (1/5) 2 := by
    have hs : ambient_colors (scanned 0 (with_lights [sample_ambient]).light_instances)
        = [vec4.finite (1/5) (1/5) (1/5) 1] := rfl
    rw [calc_lighting_ambient, hs]
    simp only [List.foldl_cons, List.foldl_nil, vec4.add, vec4.finite, sample_collaborators,
      sample_arithmetic, exact_add]
    norm_num
  have e2 : (calc_lighting sample_collaborators mat4t.identity
      (with_lights [sample_directional, sample_directional, sample_directional,
        sample_directional, sample_ambient])).light_uniforms.get 0
      = vec4.finite (1/2) (1/2) (1/2) 1 := by
    have hs : ambient_colors (scanned 0 (with_lights [sample_directional, sample_directional,
        sample_directional, sample_directional, sample_ambient]).light_instances) = [] := rfl
    rw [calc_lighting_ambient, hs]
    rfl
  refine ⟨⟨rfl, e1, ?_⟩, ⟨rfl, e2, ?_⟩⟩
  · rw [e1]
    simp only [vec4.finite, ne_eq, vec4.mk.injEq, float.finite.injEq]
    norm_num
  · rw [e2]
    simp only [vec4.finite, ne_eq, vec4.mk.injEq, float.finite.injEq]
    norm_num

/-- C3: when no light of the collection is ambient, `light_uniforms[0]` is
`(0.5, 0.5, 0.5, 1)` whatever the number of lights; for the empty collection
`num_lights` is 0 and `num_light_uniforms` is 1. -/
theorem C3_calc_lighting_default_ambient (c : collaborators) (w : mat4t) (s : scene)
    (hnone : ∀ li ∈ s.light_instances, li.kind ≠ atom_ambient) :
    (calc_lighting c w s).light_uniforms.get 0 = vec4.finite (1/2) (1/2) (1/2) 1 ∧
      (s.light_instances = [] →
        (calc_lighting c w s).num_lights = 0 ∧ (calc_lighting c w s).num_light_uniforms = 1) := by
  refine ⟨?_, ?_⟩
  · exact calc_lighting_ambient_default c w s
      (fun li hli => hnone li ((scanned_initial_segment 0 s.light_instances).subset hli))
  · intro hnil
    have h1 := calc_lighting_num_lights c w s
    have h2 := calc_lighting_num_light_uniforms c w s
    rw [hnil] at h1
    simp only [non_ambient, List.filter_nil, List.length_nil] at h1
    rw [h2, h1]
    exact ⟨rfl, rfl⟩

/-- C3 at five directional lights, and at no light at all. -/
theorem C3_calc_lighting_default_ambient_witness :
    (calc_lighting sample_collaborators mat4t.identity
        (with_lights [sample_directional, sample_directional, sample_directional,
          sample_directional, sample_directional])).light_uniforms.get 0
        = vec4.finite (1/2) (1/2) (1/2) 1 ∧
      (calc_lighting sample_collaborators mat4t.identity (with_lights [])).light_uniforms.get 0
        = vec4.finite (1/2) (1/2) (1/2) 1 ∧
      (calc_lighting sample_collaborators mat4t.identity (with_lights [])).num_lights = 0 ∧
      (calc_lighting sample_collaborators mat4t.identity (with_lights [])).num_light_uniforms
        = 1 := by
  have h5 := C3_calc_lighting_default_ambient sample_collaborators mat4t.identity
    (with_lights [sample_directional, sample_directional, sample_directional,
      sample_directional, sample_directional])
    (by simp [with_lights, sample_directional])
  have h0 := C3_calc_lighting_default_ambient sample_collaborators mat4t.identity
    (with_lights []) (by simp [with_lights])
  exact ⟨h5.1, h0.1, (h0.2 rfl).1, (h0.2 rfl).2⟩

/-- C4, amended: with exactly one directional light of colour `(1, 1, 1, 1)`
and one ambient light of colour `(0.2, 0.2, 0.2, 1)`, in either order, the
ambient output is `(0.2, 0.2, 0.2, 2)`, `num_lights` is 1 and
`num_light_uniforms` is 5. -/
theorem C4_calc_lighting_scenario (c : collaborators) (w : mat4t) (s : scene)
    (d a : light_instance) (hd : d.kind = atom_directional) (ha : a.kind = atom_ambient)
    (_hdc : d.color = vec4.finite 1 1 1 1) (hac : a.color = vec4.finite (1/5) (1/5) (1/5) 1)
    (hl : s.light_instances = [d, a] ∨ s.light_instances = [a, d]) :
    (calc_lighting c w s).light_uniforms.get 0 = vec4.finite (1/5) (1/5) (1/5) 2 ∧
      (calc_lighting c w s).num_lights = 1 ∧
      (calc_lighting c w s).num_light_uniforms = 5 := by
  have hda : d.kind ≠ atom_ambient := by rw [hd]; decide
  have hn : (calc_lighting c w s).num_lights = 1 := by
    rw [calc_lighting_num_lights]
    rcases hl with hl | hl <;> rw [hl] <;> simp [non_ambient, hda, ha]
  have hadd : vec4.add c.fp (vec4.finite 0 0 0 1) (vec4.finite (1/5) (1/5) (1/5) 1)
      = vec4.finite (1/5) (1/5) (1/5) 2 := by
    simp only [vec4.add, vec4.finite, c.fp.zero_add, float_add_one_one]
  have hcol : ambient_colors (scanned 0 s.light_instances)
      = [vec4.finite (1/5) (1/5) (1/5) 1] := by
    rcases hl with hl | hl <;> rw [hl] <;>
      simp [scanned, ambient_colors, max_lights, hda, ha, hac]
  refine ⟨?_, hn, ?_⟩
  · rw [calc_lighting_ambient, hcol]
    simp only [List.foldl_cons, List.foldl_nil, hadd]
    rfl
  · rw [calc_lighting_num_light_uniforms, hn]
    rfl

/-- C4, amended, at the two sample lights in both orders. -/
theorem C4_calc_lighting_scenario_witness :
    ((calc_lighting sample_collaborators mat4t.identity
        (with_lights [sample_directional, sample_ambient])).light_uniforms.get 0
        = vec4.finite (1/5) (1/5) (1/5) 2 ∧
      (calc_lighting sample_collaborators mat4t.identity
        (with_lights [sample_directional, sample_ambient])).num_lights = 1 ∧
      (calc_lighting sample_collaborators mat4t.identity
        (with_lights [sample_directional, sample_ambient])).num_light_uniforms = 5) ∧
    ((calc_lighting sample_collaborators mat4t.identity
        (with_lights [sample_ambient, sample_directional])).light_uniforms.get 0
        = vec4.finite (1/5) (1/5) (1/5) 2 ∧
      (calc_lighting sample_collaborators mat4t.identity
        (with_lights [sample_ambient, sample_directional])).num_lights = 1 ∧
      (calc_lighting sample_collaborators mat4t.identity
        (with_lights [sample_ambient, sample_directional])).num_light_uniforms = 5) :=
  ⟨C4_calc_lighting_scenario sample_collaborators mat4t.identity
      (with_lights [sample_directional, sample_ambient]) sample_directional sample_ambient
      rfl rfl rfl rfl (Or.inl rfl),
    C4_calc_lighting_scenario sample_collaborators mat4t.identity
      (with_lights [sample_ambient, sample_directional]) sample_directional sample_ambient
      rfl rfl rfl rfl (Or.inr rfl)⟩

/-- C4 fails as stated: in both orders the ambient output is not
`(0.2, 0.2, 0.2, 1)`; its w component is 2. -/
theorem C4_counterexample :
    (calc_lighting sample_collaborators mat4t.identity
        (with_lights [sample_directional, sample_ambient])).light_uniforms.get 0
        ≠ vec4.finite (1/5) (1/5) (1/5) 1 ∧
      ((calc_lighting sample_collaborators mat4t.identity
        (with_lights [sample_directional, sample_ambient])).light_uniforms.get 0).w
        = finite 2 ∧
      (calc_lighting sample_collaborators mat4t.identity
        (with_lights [sample_ambient, sample_directional])).light_uniforms.get 0
        ≠ vec4.finite (1/5) (1/5) (1/5) 1 ∧
      ((calc_lighting sample_collaborators mat4t.identity
        (with_lights [sample_ambient, sample_directional])).light_uniforms.get 0).w
        = finite 2 := by
  have hadd : vec4.add sample_collaborators.fp (vec4.finite 0 0 0 1)
      (vec4.finite (1/5) (1/5) (1/5) 1) = vec4.finite (1/5) (1/5) (1/5) 2 := by
    simp only [vec4.add, vec4.finite, sample_collaborators.fp.zero_add, float_add_one_one]
  have e1 : (calc_lighting sample_collaborators mat4t.identity
      (with_lights [sample_directional, sample_ambient])).light_uniforms.get 0
      = vec4.finite (1/5) (1/5) (1/5) 2 := by
    have hs : ambient_colors (scanned 0 (with_lights [sample_directional,
        sample_ambient]).light_instances) = [vec4.finite (1/5) (1/5) (1/5) 1] := rfl
    rw [calc_lighting_ambient, hs]
    simp only [List.foldl_cons, List.foldl_nil, hadd]
    rfl
  have e2 : (calc_lighting sample_collaborators mat4t.identity
      (with_lights [sample_ambient, sample_directional])).light_uniforms.get 0
      = vec4.finite (1/5) (1/5) (1/5) 2 := by
    have hs : ambient_colors (scanned 0 (with_lights [sample_ambient,
        sample_directional]).light_instances) = [vec4.finite (1/5) (1/5) (1/5) 1] := rfl
    rw [calc_lighting_ambient, hs]
    simp only [List.foldl_cons, List.foldl_nil, hadd]
    rfl
  rw [e1, e2]
  refine ⟨?_, rfl, ?_, rfl⟩ <;>
    · simp only [vec4.finite, ne_eq, vec4.mk.injEq, float.finite.injEq]
      norm_num

/-- C10: when the light collection holds at least four non-ambient lights,
the outputs of `calc_lighting` (buffer, `num_lights`, `num_light_uniforms`)
are its outputs on the shortest initial segment `p` of the collection that
holds four non-ambient lights; the lights behind `p` may be replaced by any
others without changing the outputs, so an ambient light there contributes
nothing; and when `p` has no ambient light the ambient output is
`(0.5, 0.5, 0.5, 1)`. -/
theorem C10_calc_lighting_stops_at_four (c : collaborators) (w : mat4t) (s : scene)
    (hfour : 4 ≤ (non_ambient s.light_instances).length) :
    ∃ p rest : List light_instance,
      s.light_instances = p ++ rest ∧
      (non_ambient p).length = 4 ∧
      (∀ q : List light_instance, q <+: s.light_instances → 4 ≤ (non_ambient q).length →
        p.length ≤ q.length) ∧
      lighting_outputs (calc_lighting c w s)
        = lighting_outputs (calc_lighting c w { s with light_instances := p }) ∧
      (∀ rest' : List light_instance,
        lighting_outputs (calc_lighting c w { s with light_instances := p ++ rest' })
          = lighting_outputs (calc_lighting c w s)) ∧
      ((∀ li ∈ p, li.kind ≠ atom_ambient) →
        (calc_lighting c w s).light_uniforms.get 0 = vec4.finite (1/2) (1/2) (1/2) 1) := by
  obtain ⟨rest, hsplit⟩ := scanned_initial_segment 0 s.light_instances
  have hcount := scanned_non_ambient_length 0 s.light_instances (by omega) (by omega)
  have h1 := calc_lighting_outputs_initial_segment c w s (scanned 0 s.light_instances) rest
    hsplit.symm (by omega)
  refine ⟨scanned 0 s.light_instances, rest, hsplit.symm, hcount,
    fun q hq h4 => scanned_shortest 0 s.light_instances q (by omega) hq (by omega), h1,
    fun rest' => ?_, fun hp => ?_⟩
  · rw [h1]
    exact calc_lighting_outputs_initial_segment c w
      { s with light_instances := scanned 0 s.light_instances ++ rest' }
      (scanned 0 s.light_instances) rest' rfl (by omega)
  · rw [get_eq_of_outputs_eq h1 0]
    exact calc_lighting_ambient_default c w
      { s with light_instances := scanned 0 s.light_instances }
      (fun li hli => hp li ((scanned_initial_segment 0 _).subset hli))

/-- C10 at four directional lights followed by an ambient and a directional
light: the outputs are those of the four directional lights alone, and the
ambient output is the default. -/
theorem C10_calc_lighting_stops_at_four_witness :
    lighting_outputs (calc_lighting sample_collaborators mat4t.identity
        (with_lights [sample_directional, sample_directional, sample_directional,
          sample_directional, sample_ambient, sample_directional]))
        = lighting_outputs (calc_lighting sample_collaborators mat4t.identity
            (with_lights [sample_directional, sample_directional, sample_directional,
              sample_directional])) ∧
      (calc_lighting sample_collaborators mat4t.identity
        (with_lights [sample_directional, sample_directional, sample_directional,
          sample_directional, sample_ambient, sample_directional])).light_uniforms.get 0
        = vec4.finite (1/2) (1/2) (1/2) 1 := by
  obtain ⟨p, rest, hsplit, hcount, hshort, hout, -, hgray⟩ :=
    C10_calc_lighting_stops_at_four sample_collaborators mat4t.identity
      (with_lights [sample_directional, sample_directional, sample_directional,
        sample_directional, sample_ambient, sample_directional]) (by decide)
  have hlen : p.length = 4 := by
    have h1 := hshort [sample_directional, sample_directional, sample_directional,
      sample_directional] ⟨[sample_ambient, sample_directional], rfl⟩ (by decide)
    have h2 := non_ambient_length_le p
    have h3 : ([sample_directional, sample_directional, sample_directional,
      sample_directional] : List light_instance).length = 4 := rfl
    omega
  have hp : p = [sample_directional, sample_directional, sample_directional,
      sample_directional] := by
    have h := congrArg (List.take 4) hsplit
    rw [List.take_left' hlen] at h
    rw [← h]
    rfl
  rw [hp] at hout hgray
  exact ⟨hout, hgray (by simp [sample_directional])⟩

/-! ## The claims on `scene::render_impl` and `scene::render` -/

/-- C5, amended. `r.dispatches` holds, for each iteration of the mesh loop
that is entered, the calls made in it, in order. For the mesh instance `mi`
at a position the loop reaches, these calls are: when `mi` has no skeleton or
its mesh no skin, `material::render` with the object shader, then
`mesh::render`, once each and nothing else; when it has both and the skeleton
has fewer than 64 bones, `skeleton::calc_transforms`, then
`material::render_skinned` with the skin shader, then `mesh::render`, once
each and nothing else; with 64 bones or more, `skeleton::calc_transforms`
only, and the call stops there. On the GL side the draw call comes last,
after the shader call and the texture bindings of the material. There is no
other entry in the frame: every entry stands at the position of a mesh that
the loop reaches, there are as many entries as mesh instances when no
assertion fails, and when every mesh instance is rigid the whole trace is one
`material::render` and one `mesh::render` per mesh instance. -/
theorem C5_render_impl_paths (c : collaborators) (os ss : bump_shader) (cam : camera_ref)
    (a : float) (s : scene) (r : render_result) (hr : r = render_impl c os ss cam a s) :
    (∀ (pre : List mesh_instance) (mi : mesh_instance) (post : List mesh_instance),
      s.mesh_instances = pre ++ mi :: post → (∀ x ∈ pre, bones_below_cap x) →
      (mi.skel = none ∨ mi.msh.skin = none →
        r.dispatches[pre.length]? = some
          [ call.material_render mi.mat os
              (c.get_matrices r.cam (c.calcModelToWorld s.nodes mi.node)).1
              (c.get_matrices r.cam (c.calcModelToWorld s.nodes mi.node)).2
              r.state.light_uniforms.slots r.state.num_light_uniforms r.state.num_lights,
            call.mesh_render mi.msh ] ∧
        (∀ calls, r.dispatches[pre.length]? = some calls →
          gl_trace calls =
            gl_call.shader_render os
                (c.get_matrices r.cam (c.calcModelToWorld s.nodes mi.node)).1
                (c.get_matrices r.cam (c.calcModelToWorld s.nodes mi.node)).2
                r.state.light_uniforms.slots r.state.num_light_uniforms r.state.num_lights
              :: (mi.mat.bind_textures ++ [gl_call.draw mi.msh]))) ∧
      (∀ skel skn, mi.skel = some skel → mi.msh.skin = some skn → skel.num_bones < 64 →
        r.dispatches[pre.length]? = some
          [ call.skeleton_calc_transforms skel
              (c.get_matrices r.cam (c.calcModelToWorld s.nodes mi.node)).2 skn,
            call.material_render_skinned mi.mat ss (c.get_cameraToProjection r.cam)
              (c.calc_transforms skel
                (c.get_matrices r.cam (c.calcModelToWorld s.nodes mi.node)).2 skn)
              skel.num_bones
              r.state.light_uniforms.slots r.state.num_light_uniforms r.state.num_lights,
            call.mesh_render mi.msh ] ∧
        (∀ calls, r.dispatches[pre.length]? = some calls →
          gl_trace calls =
            gl_call.shader_render_skinned ss (c.get_cameraToProjection r.cam)
                (c.calc_transforms skel
                  (c.get_matrices r.cam (c.calcModelToWorld s.nodes mi.node)).2 skn)
                skel.num_bones
                r.state.light_uniforms.slots r.state.num_light_uniforms r.state.num_lights
              :: (mi.mat.bind_textures ++ [gl_call.draw mi.msh]))) ∧
      (∀ skel skn, mi.skel = some skel → mi.msh.skin = some skn → 64 ≤ skel.num_bones →
        r.dispatches[pre.length]? = some
          [ call.skeleton_calc_transforms skel
              (c.get_matrices r.cam (c.calcModelToWorld s.nodes mi.node)).2 skn ] ∧
        r.dispatches.length = pre.length + 1 ∧
        r.status = render_status.assertion_failed pre.length)) ∧
    (∀ i, i < r.dispatches.length →
      i < s.mesh_instances.length ∧ ∀ x ∈ s.mesh_instances.take i, bones_below_cap x) ∧
    ((∀ x ∈ s.mesh_instances, bones_below_cap x) →
      r.dispatches.length = s.mesh_instances.length ∧ r.status = render_status.completed) ∧
    ((∀ mi ∈ s.mesh_instances, mi.skel = none ∨ mi.msh.skin = none) →
      r.dispatches = s.mesh_instances.map (fun mi =>
        [ call.material_render mi.mat os
            (c.get_matrices r.cam (c.calcModelToWorld s.nodes mi.node)).1
            (c.get_matrices r.cam (c.calcModelToWorld s.nodes mi.node)).2
            r.state.light_uniforms.slots r.state.num_light_uniforms r.state.num_lights,
          call.mesh_render mi.msh ])) := by
  subst hr
  have hnodes := (render_impl_state_untouched c os ss cam a s).1
  refine ⟨fun pre mi post hsplit hpre =>
      ⟨fun hrigid => ?_, fun skel skn hskel hskn hb => ?_, fun skel skn hskel hskn hb => ?_⟩,
    fun i hi => render_impl_entries c os ss cam a s i hi,
    fun hall => ⟨(render_impl_completes c os ss cam a s hall).2.1,
      (render_impl_completes c os ss cam a s hall).1⟩,
    fun hall => render_impl_all_rigid c os ss cam a s hall⟩
  · have hreach := render_impl_reached c os ss cam a s pre mi post hsplit hpre
    rw [render_mesh_rigid _ _ _ _ _ _ mi hrigid, hnodes] at hreach
    refine ⟨hreach, fun calls hcalls => ?_⟩
    rw [hreach] at hcalls
    cases hcalls
    rfl
  · have hreach := render_impl_reached c os ss cam a s pre mi post hsplit hpre
    rw [render_mesh_skinned _ _ _ _ _ _ mi skel skn hskel hskn hb, hnodes] at hreach
    refine ⟨hreach, fun calls hcalls => ?_⟩
    rw [hreach] at hcalls
    cases hcalls
    rfl
  · have hreach := render_impl_reached c os ss cam a s pre mi post hsplit hpre
    rw [render_mesh_assertion _ _ _ _ _ _ mi skel skn hskel hskn hb, hnodes] at hreach
    have hfail : ¬ bones_below_cap mi := by
      rw [bones_below_cap_skinned mi skel skn hskel hskn]
      omega
    have h := render_impl_aborts c os ss cam a s pre mi post hsplit hpre hfail
    exact ⟨hreach, h.2.1, h.1⟩

/-- C5, amended, at `sample_render`: the rigid mesh gets `material::render`
and `mesh::render`, the one with 63 bones gets `skeleton::calc_transforms`,
`material::render_skinned` and `mesh::render`, the one with 64 bones gets
`skeleton::calc_transforms` only, and the frame has these three entries and
no other. -/
theorem C5_render_impl_paths_witness :
    sample_render.dispatches[0]? = some
        [ call.material_render sample_material 7
            (sample_collaborators.get_matrices sample_render.cam mat4t.identity).1
            (sample_collaborators.get_matrices sample_render.cam mat4t.identity).2
            sample_render.state.light_uniforms.slots sample_render.state.num_light_uniforms
            sample_render.state.num_lights,
          call.mesh_render ⟨0, none⟩ ] ∧
      sample_render.dispatches[1]? = some
        [ call.skeleton_calc_transforms ⟨0, 63⟩
            (sample_collaborators.get_matrices sample_render.cam mat4t.identity).2 ⟨0⟩,
          call.material_render_skinned sample_material 8
            (sample_collaborators.get_cameraToProjection sample_render.cam)
            (sample_collaborators.calc_transforms ⟨0, 63⟩
              (sample_collaborators.get_matrices sample_render.cam mat4t.identity).2 ⟨0⟩)
            63
            sample_render.state.light_uniforms.slots sample_render.state.num_light_uniforms
            sample_render.state.num_lights,
          call.mesh_render ⟨1, some ⟨0⟩⟩ ] ∧
      sample_render.dispatches[2]? = some
        [ call.skeleton_calc_transforms ⟨0, 64⟩
            (sample_collaborators.get_matrices sample_render.cam mat4t.identity).2 ⟨0⟩ ] ∧
      sample_render.dispatches.length = 3 := by
  have h := (C5_render_impl_paths sample_collaborators 7 8 0 (finite 2) _ sample_render rfl).1
  have h0 := ((h [] sample_rigid_mesh
    [sample_skinned_mesh 63, sample_skinned_mesh 64, sample_rigid_mesh]
    rfl (fun x hx => absurd hx (List.not_mem_nil x))).1 (Or.inl rfl)).1
  have h1 := ((h [sample_rigid_mesh] (sample_skinned_mesh 63)
    [sample_skinned_mesh 64, sample_rigid_mesh]
    rfl (fun x hx => by
      rw [List.mem_singleton] at hx
      subst hx
      exact bones_below_cap_rigid _ (Or.inl rfl))).2.1 ⟨0, 63⟩ ⟨0⟩ rfl rfl (by decide)).1
  have h2 := (h [sample_rigid_mesh, sample_skinned_mesh 63] (sample_skinned_mesh 64)
    [sample_rigid_mesh]
    rfl (fun x hx => by
      simp only [List.mem_cons, List.mem_singleton, List.not_mem_nil, or_false] at hx
      rcases hx with hx | hx
      · subst hx
        exact bones_below_cap_rigid _ (Or.inl rfl)
      · subst hx
        exact (bones_below_cap_skinned _ ⟨0, 63⟩ ⟨0⟩ rfl rfl).2 (by decide))).2.2
    ⟨0, 64⟩ ⟨0⟩ rfl rfl (by decide)
  exact ⟨h0, h1, h2.1, h2.2.1⟩

/-- C5 fails as stated: for a mesh instance with a skeleton of 64 bones on a
mesh with a skin, the only call made is `skeleton::calc_transforms`; neither
`material::render_skinned` nor `mesh::render` is invoked. -/
theorem C5_counterexample :
    (sample_skinned_mesh 64).skel = some ⟨0, 64⟩ ∧
      (sample_skinned_mesh 64).msh.skin = some ⟨0⟩ ∧
      sample_render_64.dispatches =
        [[ call.skeleton_calc_transforms ⟨0, 64⟩
            (mat4t.mul mat4t.identity (mat4t.invertQuick mat4t.identity)) ⟨0⟩ ]] ∧
      (∀ calls ∈ sample_render_64.dispatches,
        call.mesh_render (sample_skinned_mesh 64).msh ∉ calls) := by
  refine ⟨rfl, rfl, rfl, ?_⟩
  intro calls hcalls
  have h : sample_render_64.dispatches =
      [[ call.skeleton_calc_transforms ⟨0, 64⟩
          (mat4t.mul mat4t.identity (mat4t.invertQuick mat4t.identity)) ⟨0⟩ ]] := rfl
  rw [h, List.mem_singleton] at hcalls
  subst hcalls
  simp

/-- C6, amended: on the skeletal path of a mesh instance the loop reaches,
the dispatch goes on to `material::render_skinned` and `mesh::render` when the
skeleton has fewer than 64 bones; with 64 bones or more the call stops at
that mesh after `skeleton::calc_transforms`: no later mesh is dispatched and
`frame_number` is not incremented. When no mesh instance fails the
assertion the call completes, dispatches every mesh and increments
`frame_number` (an `int`: by one below `INT_MAX`); a mesh instance without
skeleton or skin never fails it. -/
theorem C6_render_impl_bone_cap (c : collaborators) (os ss : bump_shader)
    (cam : camera_ref) (a : float) (s : scene) (r : render_result)
    (hr : r = render_impl c os ss cam a s) :
    (∀ pre mi post skel skn, s.mesh_instances = pre ++ mi :: post →
      (∀ x ∈ pre, bones_below_cap x) → mi.skel = some skel → mi.msh.skin = some skn →
      (skel.num_bones < 64 →
        r.dispatches[pre.length]? = some
          [ call.skeleton_calc_transforms skel
              (c.get_matrices r.cam (c.calcModelToWorld s.nodes mi.node)).2 skn,
            call.material_render_skinned mi.mat ss (c.get_cameraToProjection r.cam)
              (c.calc_transforms skel
                (c.get_matrices r.cam (c.calcModelToWorld s.nodes mi.node)).2 skn)
              skel.num_bones
              r.state.light_uniforms.slots r.state.num_light_uniforms r.state.num_lights,
            call.mesh_render mi.msh ]) ∧
      (64 ≤ skel.num_bones →
        r.status = render_status.assertion_failed pre.length ∧
        r.dispatches.length = pre.length + 1 ∧
        r.dispatches[pre.length]? = some
          [ call.skeleton_calc_transforms skel
              (c.get_matrices r.cam (c.calcModelToWorld s.nodes mi.node)).2 skn ] ∧
        r.state.frame_number = s.frame_number)) ∧
    ((∀ x ∈ s.mesh_instances, bones_below_cap x) →
      r.status = render_status.completed ∧
      r.dispatches.length = s.mesh_instances.length ∧
      r.state.frame_number = wrap_int (s.frame_number + 1) ∧
      (-2147483648 ≤ s.frame_number → s.frame_number < 2147483647 →
        r.state.frame_number = s.frame_number + 1)) ∧
    (∀ mi ∈ s.mesh_instances, mi.skel = none ∨ mi.msh.skin = none →
      ∀ cam' c2p, (render_mesh c os ss cam' c2p r.state mi).2 = true) := by
  subst hr
  have hnodes := (render_impl_state_untouched c os ss cam a s).1
  refine ⟨fun pre mi post skel skn hsplit hpre hskel hskn => ⟨fun hb => ?_, fun hb => ?_⟩,
    fun hall => ?_, fun mi _ hrigid cam' c2p => ?_⟩
  · have hreach := render_impl_reached c os ss cam a s pre mi post hsplit hpre
    rw [render_mesh_skinned _ _ _ _ _ _ mi skel skn hskel hskn hb, hnodes] at hreach
    exact hreach
  · have hreach := render_impl_reached c os ss cam a s pre mi post hsplit hpre
    rw [render_mesh_assertion _ _ _ _ _ _ mi skel skn hskel hskn hb, hnodes] at hreach
    have hfail : ¬ bones_below_cap mi := by
      rw [bones_below_cap_skinned mi skel skn hskel hskn]
      omega
    have h := render_impl_aborts c os ss cam a s pre mi post hsplit hpre hfail
    exact ⟨h.1, h.2.1, hreach, h.2.2⟩
  · have h := render_impl_completes c os ss cam a s hall
    refine ⟨h.1, h.2.1, h.2.2, fun h1 h2 => ?_⟩
    rw [h.2.2]
    exact wrap_int_of_range _ (by omega) (by omega)
  · exact (render_mesh_ends c os ss cam' c2p _ mi).2 (bones_below_cap_rigid mi hrigid)

/-- C6, amended, at `sample_render`: the mesh with 63 bones is rendered, the
one with 64 bones stops the call after three dispatches, and the frame number
stays 0. -/
theorem C6_render_impl_bone_cap_witness :
    sample_render.dispatches[1]? = some
        [ call.skeleton_calc_transforms ⟨0, 63⟩
            (sample_collaborators.get_matrices sample_render.cam mat4t.identity).2 ⟨0⟩,
          call.material_render_skinned sample_material 8
            (sample_collaborators.get_cameraToProjection sample_render.cam)
            (sample_collaborators.calc_transforms ⟨0, 63⟩
              (sample_collaborators.get_matrices sample_render.cam mat4t.identity).2 ⟨0⟩)
            63
            sample_render.state.light_uniforms.slots sample_render.state.num_light_uniforms
            sample_render.state.num_lights,
          call.mesh_render ⟨1, some ⟨0⟩⟩ ] ∧
      sample_render.status = render_status.assertion_failed 2 ∧
      sample_render.dispatches.length = 3 ∧
      sample_render.dispatches[2]? = some
        [ call.skeleton_calc_transforms ⟨0, 64⟩
            (sample_collaborators.get_matrices sample_render.cam mat4t.identity).2 ⟨0⟩ ] ∧
      sample_render.state.frame_number = 0 := by
  have h := (C6_render_impl_bone_cap sample_collaborators 7 8 0 (finite 2) _ sample_render
    rfl).1
  have h63 := (h [sample_rigid_mesh] (sample_skinned_mesh 63)
    [sample_skinned_mesh 64, sample_rigid_mesh] ⟨0, 63⟩ ⟨0⟩ rfl
    (fun x hx => by
      rw [List.mem_singleton] at hx
      subst hx
      exact bones_below_cap_rigid _ (Or.inl rfl)) rfl rfl).1 (by decide)
  have h64 := (h [sample_rigid_mesh, sample_skinned_mesh 63] (sample_skinned_mesh 64)
    [sample_rigid_mesh] ⟨0, 64⟩ ⟨0⟩ rfl
    (fun x hx => by
      simp only [List.mem_cons, List.mem_singleton, List.not_mem_nil, or_false] at hx
      rcases hx with hx | hx
      · subst hx
        exact bones_below_cap_rigid _ (Or.inl rfl)
      · subst hx
        exact (bones_below_cap_skinned _ ⟨0, 63⟩ ⟨0⟩ rfl rfl).2 (by decide)) rfl rfl).2
    (by decide)
  exact ⟨h63, h64.1, h64.2.1, h64.2.2.1, h64.2.2.2⟩

/-- C6 fails as stated: a skeleton of 64 bones does not exceed the cap 64, yet
the assertion fails at that mesh: the call stops after
`skeleton::calc_transforms`, without `material::render_skinned`, without
draw, and without incrementing `frame_number`. -/
theorem C6_counterexample :
    (sample_skinned_mesh 64).skel = some ⟨0, 64⟩ ∧
      ¬ ((64 : Int) > 64) ∧
      sample_render_64.status = render_status.assertion_failed 0 ∧
      sample_render_64.dispatches =
        [[ call.skeleton_calc_transforms ⟨0, 64⟩
            (mat4t.mul mat4t.identity (mat4t.invertQuick mat4t.identity)) ⟨0⟩ ]] ∧
      sample_render_64.state.frame_number = 0 :=
  ⟨rfl, by decide, rfl, rfl, rfl⟩

/-- C7: calling `create_default_camera_and_lights` twice leaves the scene
(cameras, lights, nodes, children and all the rest) exactly as calling it
once; a collection that is not empty is left unchanged (for the cameras: the
references and the camera objects), and one node is
created per empty collection, none for a non-empty one; and from a scene
without cameras and lights, two calls leave exactly one camera instance and
exactly one light instance, of kind directional. -/
theorem C7_create_default_idempotent (c : collaborators) (s : scene) :
    create_default_camera_and_lights c (create_default_camera_and_lights c s)
        = create_default_camera_and_lights c s ∧
    (s.camera_instances ≠ [] →
      (create_default_camera_and_lights c s).camera_instances = s.camera_instances ∧
      (create_default_camera_and_lights c s).cameras = s.cameras) ∧
    (s.light_instances ≠ [] →
      (create_default_camera_and_lights c s).light_instances = s.light_instances) ∧
    (create_default_camera_and_lights c s).nodes.length
      = s.nodes.length + (if s.camera_instances = [] then 1 else 0)
        + (if s.light_instances = [] then 1 else 0) ∧
    (create_default_camera_and_lights c s).children.length
      = s.children.length + (if s.camera_instances = [] then 1 else 0)
        + (if s.light_instances = [] then 1 else 0) ∧
    (s.camera_instances ≠ [] → s.light_instances ≠ [] →
      create_default_camera_and_lights c s = s) ∧
    (s.camera_instances = [] → s.light_instances = [] →
      (create_default_camera_and_lights c
        (create_default_camera_and_lights c s)).camera_instances.length = 1 ∧
      ∃ li, (create_default_camera_and_lights c
        (create_default_camera_and_lights c s)).light_instances = [li] ∧
        li.kind = atom_directional) := by
  have hcam := create_default_camera_fields c s
  have hlight := create_default_light_fields c (create_default_camera c s)
  have hidem : create_default_camera_and_lights c (create_default_camera_and_lights c s)
      = create_default_camera_and_lights c s := by
    apply create_default_of_ne
    · show (create_default_light c (create_default_camera c s)).camera_instances ≠ []
      rw [hlight.2.1]
      exact hcam.1
    · exact hlight.1
  refine ⟨hidem, fun hc => ?_, fun hl => ?_, ?_, ?_, create_default_of_ne c s, fun hc hl => ?_⟩
  · refine ⟨?_, ?_⟩
    · show (create_default_light c (create_default_camera c s)).camera_instances = _
      rw [hlight.2.1, create_default_camera_of_ne c s hc]
    · show (create_default_light c (create_default_camera c s)).cameras = _
      rw [create_default_light_cameras, create_default_camera_of_ne c s hc]
  · show (create_default_light c (create_default_camera c s)).light_instances = _
    rw [create_default_light_of_ne c _ (by rw [hcam.2.1]; exact hl), hcam.2.1]
  · show (create_default_light c (create_default_camera c s)).nodes.length = _
    rw [hlight.2.2.1, hcam.2.2.1, hcam.2.1]
  · show (create_default_light c (create_default_camera c s)).children.length = _
    rw [hlight.2.2.2, hcam.2.2.2, hcam.2.1]
  · rw [hidem]
    have h1 := create_default_camera_of_nil c s hc
    have h2 := create_default_light_of_nil c (create_default_camera c s)
      (by rw [h1.2.2.1]; exact hl)
    refine ⟨?_, _, h2.1, rfl⟩
    show (create_default_light c (create_default_camera c s)).camera_instances.length = 1
    rw [h2.2.1, h1.1]
    rfl

/-- C7 at the empty scene `sample_scene`: two calls leave one camera, one
directional light and two nodes. -/
theorem C7_create_default_idempotent_witness :
    (create_default_camera_and_lights sample_collaborators
        (create_default_camera_and_lights sample_collaborators
          sample_scene)).camera_instances.length = 1 ∧
      (create_default_camera_and_lights sample_collaborators
        (create_default_camera_and_lights sample_collaborators sample_scene)).light_instances
        = [⟨1, atom_directional, vec4.finite 1 1 1 1⟩] ∧
      (create_default_camera_and_lights sample_collaborators
        (create_default_camera_and_lights sample_collaborators sample_scene)).nodes.length
        = 2 := by
  have h := C7_create_default_idempotent sample_collaborators sample_scene
  refine ⟨(h.2.2.2.2.2.2 rfl rfl).1, ?_, ?_⟩
  · rw [h.1]
    rfl
  · rw [h.1, h.2.2.2.1]
    rfl

/-- C8: `get_first_mesh_instance(node)` returns the mesh instance at the
smallest index of the collection whose node is `node`; it returns `NULL`
exactly when no mesh instance of the collection is on `node`; it leaves the
scene as it was; and an instance added later by `add_mesh_instance` does not
change a result already found, while it is the result when none was found and
it is on `node`. -/
theorem C8_get_first_mesh_instance (s : scene) (node : node_ref) :
    (∀ mi, (get_first_mesh_instance s node).1 = some mi ↔
      ∃ i : Nat, s.mesh_instances[i]? = some mi ∧ mi.node = node ∧
        ∀ (j : Nat) (mj : mesh_instance), j < i → s.mesh_instances[j]? = some mj →
          mj.node ≠ node) ∧
    ((get_first_mesh_instance s node).1 = none ↔ ∀ mi ∈ s.mesh_instances, mi.node ≠ node) ∧
    (get_first_mesh_instance s node).2 = s ∧
    (∀ mi inst, (get_first_mesh_instance s node).1 = some mi →
      (get_first_mesh_instance (add_mesh_instance s inst) node).1 = some mi) ∧
    (∀ inst, (get_first_mesh_instance s node).1 = none → inst.node = node →
      (get_first_mesh_instance (add_mesh_instance s inst) node).1 = some inst) := by
  refine ⟨fun mi => get_first_loop_some_iff node s.mesh_instances mi,
    get_first_loop_none_iff node s.mesh_instances, rfl, fun mi inst h => ?_, fun inst h hn => ?_⟩
  · show get_first_mesh_instance_loop node (s.mesh_instances ++ [inst]) = some mi
    rw [get_first_loop_append]
    have h' : get_first_mesh_instance_loop node s.mesh_instances = some mi := h
    rw [h']
  · show get_first_mesh_instance_loop node (s.mesh_instances ++ [inst]) = some inst
    rw [get_first_loop_append]
    have h' : get_first_mesh_instance_loop node s.mesh_instances = none := h
    rw [h']
    simp [get_first_mesh_instance_loop, hn]

/-- C8 at three mesh instances on nodes 0, 1, 0: the lookup of node 1 returns
the second instance, the lookup of node 0 the first one although the third
is on node 0 too, the lookup of node 5 returns `NULL`. -/
theorem C8_get_first_mesh_instance_witness :
    (get_first_mesh_instance
        (with_meshes [sample_mesh_on 0, sample_mesh_on 1, sample_skinned_mesh 3]) 1).1
        = some (sample_mesh_on 1) ∧
      (get_first_mesh_instance
        (with_meshes [sample_mesh_on 0, sample_mesh_on 1, sample_skinned_mesh 3]) 0).1
        = some (sample_mesh_on 0) ∧
      (get_first_mesh_instance
        (with_meshes [sample_mesh_on 0, sample_mesh_on 1, sample_skinned_mesh 3]) 5).1
        = none := by
  have h := C8_get_first_mesh_instance
    (with_meshes [sample_mesh_on 0, sample_mesh_on 1, sample_skinned_mesh 3])
  refine ⟨((h 1).1 _).2 ⟨1, rfl, rfl, fun j mj hj hmj => ?_⟩,
    ((h 0).1 _).2 ⟨0, rfl, rfl, fun j mj hj => absurd hj (Nat.not_lt_zero j)⟩, (h 5).2.1.2 ?_⟩
  · have hj0 : j = 0 := by omega
    subst hj0
    simp only [with_meshes, List.getElem?_cons_zero, Option.some.injEq] at hmj
    subst hmj
    decide
  · intro mi hmi
    simp only [with_meshes, List.mem_cons, List.mem_singleton, List.not_mem_nil, or_false] at hmi
    rcases hmi with h | h | h <;> subst h <;> decide

end Octet
